import Mathlib

/-!
# just_playback: the playback core of `ma_playback.c`

A shallow embedding of `src/just_playback/ma_playback.c`.

* `Attrs` is the C struct `Attrs` (the fields the code reads or writes).
* The audio library (decoder, resampler, device) and the allocator are external:
  they are a parameter `Ext W` of every function, acting on an arbitrary world `W`.
* Every external call is also appended to a call log, so that statements such as
  "no device stop is issued" or "one seek is issued before the read" can be made.
* The playback device is the only caller of `audio_stream_callback`;
  `device_render` is the call it makes, with the output buffer silenced beforehand.
  The callback itself is defined for every content of the buffer.
* Buffers are lists of bytes; `ma_uint32` / `ma_uint64` arithmetic is `Nat`
  arithmetic reduced modulo `2^32` / `2^64` where the C code computes in that type.
* A `float` value is modelled by the rational number it denotes; a float product
  is the exact product rounded to the nearest binary32 value (`f32_round`).
-/

namespace JustPlayback

/-! ## Machine integers and byte buffers -/

/-- Reduction of a natural number to the range of `ma_uint32`. -/
def u32 (n : Nat) : Nat := n % 2 ^ 32

/-- Reduction of a natural number to the range of `ma_uint64`. -/
def u64 (n : Nat) : Nat := n % 2 ^ 64

/-- Conversion `(ma_uint32)x` of a float value: truncation towards zero, reduced
modulo `2^32` (negative values give 0). -/
def f32_to_u32 (x : ℚ) : Nat := u32 (Int.toNat (Int.floor x))

/-- Number of binary digits of `n`, computed with the given fuel (enough when
`n < 2 ^ fuel`). -/
def bit_length : Nat → Nat → Nat
  | 0, _ => 0
  | fuel + 1, n => if n = 0 then 0 else bit_length fuel (n / 2) + 1

/-- Rounding of a non-negative rational to the nearest natural number, ties to the
even one. -/
def round_half_even (q : ℚ) : Nat :=
  if q - (⌊q⌋₊ : ℚ) < 1 / 2 then ⌊q⌋₊
  else if 1 / 2 < q - (⌊q⌋₊ : ℚ) then ⌊q⌋₊ + 1
  else if ⌊q⌋₊ % 2 = 0 then ⌊q⌋₊ else ⌊q⌋₊ + 1

/-- Rounding of a rational to the nearest `float` (binary32: 24 significant bits,
ties to even), for positive values in the normal range of `float` (at least
`2^-126`, below `2^128`); values that are not positive give 0.  With `e` the
exponent of `x` (`2^e <= x < 2^(e+1)`), the result is the multiple of `2^(e-23)`
nearest to `x`. -/
def f32_round (x : ℚ) : ℚ :=
  if x ≤ 0 then 0
  else if 174 ≤ bit_length 400 ⌊x * 2 ^ 150⌋₊ then
    (round_half_even (x / 2 ^ (bit_length 400 ⌊x * 2 ^ 150⌋₊ - 174)) : ℚ) *
      2 ^ (bit_length 400 ⌊x * 2 ^ 150⌋₊ - 174)
  else
    (round_half_even (x * 2 ^ (174 - bit_length 400 ⌊x * 2 ^ 150⌋₊)) : ℚ) /
      2 ^ (174 - bit_length 400 ⌊x * 2 ^ 150⌋₊)

/-- The float product `n * x` of a `ma_uint32` value and a `float` (lines 120 and
238): `n` is converted to `float`, and the product is rounded to `float`. -/
def f32_mul (n : Nat) (x : ℚ) : ℚ := f32_round (f32_round (n : ℚ) * x)

/-- Bytes stored by an external routine at the start of a buffer: the first
`data.length` bytes are replaced, the rest of the buffer keeps its contents. -/
def store (buf data : List Nat) : List Nat := data ++ buf.drop data.length

/-- C `memset(buf + off, 0, len)`: bytes `off .. off+len-1` become 0, every other
byte keeps its contents. -/
def memset (buf : List Nat) (off len : Nat) : List Nat :=
  buf.take off ++ List.replicate len 0 ++ buf.drop (off + len)

/-! ## Result codes, call log, external interface -/

/-- Result codes of the audio library that the program returns or tests. -/
inductive ma_result where
  | MA_SUCCESS
  | MA_ERROR
  | MA_INVALID_ARGS
  | MA_OUT_OF_MEMORY
  | MA_AT_END
  deriving DecidableEq, Repr

/-- Destination buffer of a decoder read. -/
inductive Dst where
  | pOutput
  | temp_buffer
  deriving DecidableEq, Repr

/-- External calls made by the program, with the arguments the statements below
refer to.  A decoder read also records its result code and `*pFramesRead`; a
resampler call records the frame counts passed in (`framesIn`, `framesOut`) and
the counts stored back (`consumed`, `produced`); a resampler init records its
result code and `malloc` the pointer it returned (`none` is `NULL`); a decoder
open records the path and its result code. -/
inductive Call where
  | ma_context_init
  | ma_context_get_devices
  | ma_decoder_init_file (path : List Nat) (res : ma_result)
  | ma_decoder_init_file_w (path : List Nat) (res : ma_result)
  | ma_device_init
  | ma_device_uninit
  | ma_device_start
  | ma_device_stop
  | ma_device_set_master_volume
  | ma_device_get_master_volume
  | ma_decoder_uninit
  | ma_decoder_seek_to_pcm_frame (frame : Nat)
  | ma_decoder_read_pcm_frames (dst : Dst) (frameCount : Nat) (res : ma_result) (framesRead : Nat)
  | ma_resampler_init (rateIn rateOut : Nat) (res : ma_result)
  | ma_resampler_uninit
  | ma_resampler_process_pcm_frames (framesIn framesOut consumed produced : Nat)
  | malloc (size : Nat) (ptr : Option Nat)
  | free (ptr : Nat)
  deriving DecidableEq, Repr

/-- The part of `ma_device_config` the program uses. -/
structure DeviceConfig where
  format : Nat
  channels : Nat
  sampleRate : Nat
  deriving DecidableEq, Repr

/-- Outcome of `ma_decoder_read_pcm_frames`: new world, result code, the count
stored in `*pFramesRead`, and the bytes stored at the destination. -/
structure ReadOut (W : Type) where
  world : W
  res : ma_result
  num_read_frames : Nat
  data : List Nat

/-- Outcome of `ma_resampler_process_pcm_frames`: new world, result code, the
counts stored back in `*pFrameCountIn` and `*pFrameCountOut`, and the bytes stored
at `pFramesOut`. -/
structure ProcOut (W : Type) where
  world : W
  res : ma_result
  frames_in : Nat
  frames_out : Nat
  data : List Nat

/-- Outcome of `ma_decoder_init_file`: new world, result code, and the values the
decoder struct holds afterwards in `outputFormat`, `outputChannels` and
`outputSampleRate`. -/
structure OpenOut (W : Type) where
  world : W
  res : ma_result
  outputFormat : Nat
  outputChannels : Nat
  outputSampleRate : Nat

/-- The external collaborators (audio library and allocator) acting on a world
`W`.  Nothing is assumed about them.  A path is the list of its character codes. -/
structure Ext (W : Type) where
  ma_context_init : W → W × ma_result
  ma_context_get_devices : W → W × ma_result × Nat
  ma_decoder_init_file : W → List Nat → OpenOut W
  ma_decoder_init_file_w : W → List Nat → OpenOut W
  ma_get_bytes_per_sample : Nat → Nat
  ma_device_config_init : DeviceConfig
  ma_device_init : W → DeviceConfig → W × ma_result
  ma_device_uninit : W → W
  ma_device_start : W → W × ma_result
  ma_device_stop : W → W × ma_result
  ma_device_set_master_volume : W → ℚ → W × ma_result
  ma_device_get_master_volume : W → W × ma_result × ℚ
  ma_decoder_uninit : W → W × ma_result
  ma_decoder_seek_to_pcm_frame : W → Nat → W × ma_result
  ma_decoder_read_pcm_frames : W → Dst → Nat → ReadOut W
  ma_resampler_init : W → Nat → Nat → Nat → Nat → W × ma_result
  ma_resampler_uninit : W → W
  ma_resampler_process_pcm_frames : W → List Nat → Nat → Nat → ProcOut W
  malloc : W → Nat → W × Option Nat
  free : W → Nat → W

/-! ## Program state -/

/-- The C struct `Attrs`.  `decoder_output*` are the fields of `attrs->decoder`
the code reads; `temp_buffer = none` is the `NULL` pointer.  The header that
declares the struct is not among the sources: `frame_offset` is a 64-bit unsigned
integer (section 3 of the spec), `temp_buffer_size` is wide enough to hold every
`ma_uint32` value, and `playback_speed` is a `float`. -/
structure Attrs where
  decoder_outputFormat : Nat
  decoder_outputChannels : Nat
  decoder_outputSampleRate : Nat
  deviceConfig : DeviceConfig
  num_playback_devices : Nat
  frame_offset : Nat
  playback_volume : ℚ
  playback_speed : ℚ
  loops_at_end : Bool
  frame_offset_modified : Bool
  audio_stream_ready : Bool
  audio_stream_active : Bool
  audio_stream_ended_naturally : Bool
  resampler_initialized : Bool
  temp_buffer : Option Nat
  temp_buffer_size : Nat
  deriving DecidableEq, Repr

/-- Program state together with the external world and the log of external calls. -/
structure Sys (W : Type) where
  attrs : Attrs
  world : W
  calls : List Call

/-- Record an external call: new world and one more entry in the log. -/
def Sys.ext {W : Type} (s : Sys W) (w : W) (c : Call) : Sys W :=
  { attrs := s.attrs, world := w, calls := s.calls ++ [c] }

/-- Replace the `Attrs` part of the state. -/
def Sys.set {W : Type} (s : Sys W) (a : Attrs) : Sys W :=
  { attrs := a, world := s.world, calls := s.calls }

/-! ## The functions of `ma_playback.c` -/

/-- Function `init_attrs` (lines 32-52).  The callback pointer and the user-data
pointer stored in `deviceConfig` are not modelled. -/
def init_attrs {W : Type} (E : Ext W) (attrs : Attrs) : Attrs :=
  { attrs with
    deviceConfig := E.ma_device_config_init
    frame_offset := 0
    playback_volume := 1
    playback_speed := 1
    loops_at_end := false
    frame_offset_modified := false
    audio_stream_ready := false
    audio_stream_active := false
    audio_stream_ended_naturally := false
    resampler_initialized := false
    temp_buffer := none
    temp_buffer_size := 0 }

/-- Function `check_available_playback_devices` (lines 5-29): stores the playback
device count reported by `ma_context_get_devices`. -/
def check_available_playback_devices {W : Type} (E : Ext W) (s : Sys W) : Sys W × ma_result :=
  let r := E.ma_context_init s.world
  let s1 : Sys W := s.ext r.1 Call.ma_context_init
  if r.2 ≠ ma_result.MA_SUCCESS then (s1, r.2)
  else
    let g := E.ma_context_get_devices s1.world
    ((s1.ext g.1 Call.ma_context_get_devices).set
      { s1.attrs with num_playback_devices := g.2.2 }, g.2.1)

/-- Function `load_file` (lines 55-67): opens the decoder and copies its output
format, channel count and sample rate into the device configuration, whatever the
result of the open. -/
def load_file {W : Type} (E : Ext W) (s : Sys W) (path_to_file : List Nat) : Sys W × ma_result :=
  let o := E.ma_decoder_init_file s.world path_to_file
  let s1 : Sys W :=
    (s.ext o.world (Call.ma_decoder_init_file path_to_file o.res)).set
      { s.attrs with
        decoder_outputFormat := o.outputFormat
        decoder_outputChannels := o.outputChannels
        decoder_outputSampleRate := o.outputSampleRate }
  (s1.set { s1.attrs with
      deviceConfig :=
        { s1.attrs.deviceConfig with
          format := s1.attrs.decoder_outputFormat
          channels := s1.attrs.decoder_outputChannels
          sampleRate := s1.attrs.decoder_outputSampleRate } }, o.res)

/-- Function `load_file_w` (lines 69-81): `load_file` for a wide-character path. -/
def load_file_w {W : Type} (E : Ext W) (s : Sys W) (path_to_file : List Nat) : Sys W × ma_result :=
  let o := E.ma_decoder_init_file_w s.world path_to_file
  let s1 : Sys W :=
    (s.ext o.world (Call.ma_decoder_init_file_w path_to_file o.res)).set
      { s.attrs with
        decoder_outputFormat := o.outputFormat
        decoder_outputChannels := o.outputChannels
        decoder_outputSampleRate := o.outputSampleRate }
  (s1.set { s1.attrs with
      deviceConfig :=
        { s1.attrs.deviceConfig with
          format := s1.attrs.decoder_outputFormat
          channels := s1.attrs.decoder_outputChannels
          sampleRate := s1.attrs.decoder_outputSampleRate } }, o.res)

/-- Function `init_resampler` (lines 109-145). -/
def init_resampler {W : Type} (E : Ext W) (s : Sys W) : Sys W × ma_result :=
  let s1 : Sys W :=
    if s.attrs.resampler_initialized then
      (s.ext (E.ma_resampler_uninit s.world) Call.ma_resampler_uninit).set
        { s.attrs with resampler_initialized := false }
    else s
  let effective_sample_rate : Nat :=
    f32_to_u32 (f32_mul s1.attrs.decoder_outputSampleRate s1.attrs.playback_speed)
  let r := E.ma_resampler_init s1.world s1.attrs.decoder_outputFormat
    s1.attrs.decoder_outputChannels effective_sample_rate s1.attrs.deviceConfig.sampleRate
  let s2 : Sys W :=
    s1.ext r.1 (Call.ma_resampler_init effective_sample_rate s1.attrs.deviceConfig.sampleRate r.2)
  if r.2 = ma_result.MA_SUCCESS then
    let size : Nat :=
      u32 (u32 (4096 * s2.attrs.decoder_outputChannels) *
        E.ma_get_bytes_per_sample s2.attrs.decoder_outputFormat)
    let m := E.malloc s2.world size
    let s3 : Sys W :=
      (s2.ext m.1 (Call.malloc size m.2)).set
        { s2.attrs with
          resampler_initialized := true
          temp_buffer_size := size
          temp_buffer := m.2 }
    match m.2 with
    | none =>
      ((s3.ext (E.ma_resampler_uninit s3.world) Call.ma_resampler_uninit).set
        { s3.attrs with resampler_initialized := false }, ma_result.MA_OUT_OF_MEMORY)
    | some _ => (s3, r.2)
  else (s2, r.2)

/-- Function `init_audio_stream` (lines 85-107). -/
def init_audio_stream {W : Type} (E : Ext W) (s : Sys W) : Sys W × ma_result :=
  let r := E.ma_device_init s.world s.attrs.deviceConfig
  let s1 : Sys W := s.ext r.1 Call.ma_device_init
  if r.2 ≠ ma_result.MA_SUCCESS then (s1, r.2)
  else if s1.attrs.playback_speed ≠ 1 then
    let q := init_resampler E s1
    if q.2 ≠ ma_result.MA_SUCCESS then
      (q.1.ext (E.ma_device_uninit q.1.world) Call.ma_device_uninit, q.2)
    else (q.1.set { q.1.attrs with audio_stream_ready := true }, q.2)
  else (s1.set { s1.attrs with audio_stream_ready := true }, r.2)

/-- Function `start_audio_stream` (lines 147-155). -/
def start_audio_stream {W : Type} (E : Ext W) (s : Sys W) : Sys W × ma_result :=
  let r := E.ma_device_start s.world
  ((s.ext r.1 Call.ma_device_start).set { s.attrs with audio_stream_active := true }, r.2)

/-- Function `stop_audio_stream` (lines 158-166). -/
def stop_audio_stream {W : Type} (E : Ext W) (s : Sys W) : Sys W × ma_result :=
  let r := E.ma_device_stop s.world
  ((s.ext r.1 Call.ma_device_stop).set { s.attrs with audio_stream_active := false }, r.2)

/-- Function `terminate_audio_stream` (lines 169-195). -/
def terminate_audio_stream {W : Type} (E : Ext W) (s : Sys W) : Sys W × ma_result :=
  let s1 : Sys W := s.ext (E.ma_device_uninit s.world) Call.ma_device_uninit
  let r := E.ma_decoder_uninit s1.world
  let s2 : Sys W := s1.ext r.1 Call.ma_decoder_uninit
  let s3 : Sys W :=
    if s2.attrs.resampler_initialized then
      (s2.ext (E.ma_resampler_uninit s2.world) Call.ma_resampler_uninit).set
        { s2.attrs with resampler_initialized := false }
    else s2
  let s4 : Sys W :=
    match s3.attrs.temp_buffer with
    | some p =>
      (s3.ext (E.free s3.world p) (Call.free p)).set
        { s3.attrs with temp_buffer := none, temp_buffer_size := 0 }
    | none => s3
  (s4.set { s4.attrs with
      frame_offset := 0
      audio_stream_ready := false
      audio_stream_active := false
      audio_stream_ended_naturally := false }, r.2)

/-- Function `handle_end_of_stream` (lines 280-294). -/
def handle_end_of_stream {W : Type} (E : Ext W) (s : Sys W) : Sys W :=
  if s.attrs.loops_at_end then
    (s.ext (E.ma_decoder_seek_to_pcm_frame s.world 0).1 (Call.ma_decoder_seek_to_pcm_frame 0)).set
      { s.attrs with frame_offset := 0 }
  else
    s.set { s.attrs with audio_stream_active := false, audio_stream_ended_naturally := true }

/-- The product `attrs->decoder.outputChannels *
ma_get_bytes_per_sample(attrs->decoder.outputFormat)` as the code computes it, in
`ma_uint32` (lines 241, 266 and 271). -/
def bytes_per_frame {W : Type} (E : Ext W) (attrs : Attrs) : Nat :=
  u32 (attrs.decoder_outputChannels * E.ma_get_bytes_per_sample attrs.decoder_outputFormat)

/-- The requested input frame count of `handle_speed_controlled_playback`
(lines 238-244): `(ma_uint32)(frameCount * playback_speed) + 1`, the product being
a float product, clamped to `max_frames = temp_buffer_size / bytes_per_frame`.  The
quotient is natural-number division (a zero divisor, undefined in C, gives 0). -/
def frames_to_read {W : Type} (E : Ext W) (attrs : Attrs) (frameCount : Nat) : Nat :=
  let frames_to_read0 : Nat := u32 (f32_to_u32 (f32_mul frameCount attrs.playback_speed) + 1)
  let max_frames : Nat := u32 (attrs.temp_buffer_size / bytes_per_frame E attrs)
  if frames_to_read0 > max_frames then max_frames else frames_to_read0

/-- The decoder read of `handle_speed_controlled_playback` (lines 246-247): a read
of `frames_to_read` frames into the scratch buffer. -/
def scratch_read {W : Type} (E : Ext W) (s : Sys W) (frameCount : Nat) : ReadOut W :=
  E.ma_decoder_read_pcm_frames s.world Dst.temp_buffer (frames_to_read E s.attrs frameCount)

/-- The resample-or-silence block of `handle_speed_controlled_playback`
(lines 249-273), run after the decoder read `rd` into the scratch buffer.  Returns
the new state and the contents of the output buffer. -/
def resample_or_silence {W : Type} (E : Ext W) (s : Sys W) (rd : ReadOut W)
    (pOutput : List Nat) (frameCount : Nat) : Sys W × List Nat :=
  if rd.num_read_frames > 0 then
    let pr := E.ma_resampler_process_pcm_frames s.world rd.data rd.num_read_frames frameCount
    let s2 : Sys W :=
      (s.ext pr.world (Call.ma_resampler_process_pcm_frames rd.num_read_frames frameCount
          pr.frames_in pr.frames_out)).set
        { s.attrs with frame_offset := u64 (s.attrs.frame_offset + pr.frames_in) }
    let out1 : List Nat := store pOutput pr.data
    if pr.frames_out < frameCount then
      let remaining_frames : Nat := u32 (frameCount + 2 ^ 32 - u32 pr.frames_out)
      (s2, memset out1 (u64 (pr.frames_out * bytes_per_frame E s.attrs))
        (u32 (remaining_frames * bytes_per_frame E s.attrs)))
    else (s2, out1)
  else
    (s, memset pOutput 0 (u32 (frameCount * bytes_per_frame E s.attrs)))

/-- Function `handle_speed_controlled_playback` (lines 232-278).  Returns the new state and
the contents of the output buffer. -/
def handle_speed_controlled_playback {W : Type} (E : Ext W) (s : Sys W)
    (pOutput : List Nat) (frameCount : Nat) : Sys W × List Nat :=
  let rd := scratch_read E s frameCount
  let q := resample_or_silence E
    (s.ext rd.world (Call.ma_decoder_read_pcm_frames Dst.temp_buffer
      (frames_to_read E s.attrs frameCount) rd.res rd.num_read_frames))
    rd pOutput frameCount
  if rd.res = ma_result.MA_AT_END then (handle_end_of_stream E q.1, q.2) else q

/-- The seek-servicing block of `audio_stream_callback` (lines 208-214). -/
def service_seek {W : Type} (E : Ext W) (s : Sys W) : Sys W :=
  if s.attrs.frame_offset_modified then
    (s.ext (E.ma_decoder_seek_to_pcm_frame s.world s.attrs.frame_offset).1
      (Call.ma_decoder_seek_to_pcm_frame s.attrs.frame_offset)).set
      { s.attrs with frame_offset_modified := false }
  else s

/-- The decoder read of the direct-playback branch (line 219): a read of
`frameCount` frames into the output buffer. -/
def direct_read {W : Type} (E : Ext W) (s : Sys W) (frameCount : Nat) : ReadOut W :=
  E.ma_decoder_read_pcm_frames s.world Dst.pOutput frameCount

/-- The direct-playback branch of `audio_stream_callback` (lines 219-224). -/
def direct_playback {W : Type} (E : Ext W) (s : Sys W)
    (pOutput : List Nat) (frameCount : Nat) : Sys W × List Nat :=
  let rd := direct_read E s frameCount
  let s2 : Sys W :=
    (s.ext rd.world (Call.ma_decoder_read_pcm_frames Dst.pOutput frameCount rd.res rd.num_read_frames)).set
      { s.attrs with frame_offset := u64 (s.attrs.frame_offset + rd.num_read_frames) }
  if rd.res = ma_result.MA_AT_END then (handle_end_of_stream E s2, store pOutput rd.data)
  else (s2, store pOutput rd.data)

/-- Function `audio_stream_callback` (lines 198-230).  `pOutput` is the contents of the
output buffer on entry; the result holds its contents on return. -/
def audio_stream_callback {W : Type} (E : Ext W) (s : Sys W)
    (pOutput : List Nat) (frameCount : Nat) : Sys W × List Nat :=
  if (service_seek E s).attrs.playback_speed = 1 ∨
      (service_seek E s).attrs.resampler_initialized = false then
    direct_playback E (service_seek E s) pOutput frameCount
  else handle_speed_controlled_playback E (service_seek E s) pOutput frameCount

/-- Function `set_playback_speed` (lines 296-326). -/
def set_playback_speed {W : Type} (E : Ext W) (s : Sys W) (speed : ℚ) : Sys W × ma_result :=
  if speed ≤ 0 then (s, ma_result.MA_INVALID_ARGS)
  else
    let s1 : Sys W := s.set { s.attrs with playback_speed := speed }
    if s1.attrs.audio_stream_ready then
      if speed = 1 then
        if s1.attrs.resampler_initialized then
          let s2 : Sys W :=
            (s1.ext (E.ma_resampler_uninit s1.world) Call.ma_resampler_uninit).set
              { s1.attrs with resampler_initialized := false }
          match s2.attrs.temp_buffer with
          | some p =>
            ((s2.ext (E.free s2.world p) (Call.free p)).set
              { s2.attrs with temp_buffer := none, temp_buffer_size := 0 }, ma_result.MA_SUCCESS)
          | none => (s2, ma_result.MA_SUCCESS)
        else (s1, ma_result.MA_SUCCESS)
      else init_resampler E s1
    else (s1, ma_result.MA_SUCCESS)

/-- Function `set_device_volume` (lines 328-333). -/
def set_device_volume {W : Type} (E : Ext W) (s : Sys W) : Sys W × ma_result :=
  let r := E.ma_device_set_master_volume s.world s.attrs.playback_volume
  (s.ext r.1 Call.ma_device_set_master_volume, r.2)

/-- Function `get_device_volume` (lines 336-343). -/
def get_device_volume {W : Type} (E : Ext W) (s : Sys W) : Sys W × ma_result :=
  let r := E.ma_device_get_master_volume s.world
  ((s.ext r.1 Call.ma_device_get_master_volume).set { s.attrs with playback_volume := r.2.2 }, r.2.1)

/-! ## Field writes of the controller -/

/-- Modelled from the spec: `seek(frame_index)` of section 4.3.  The sources hold
no function for it; the controller writes the two fields itself. -/
def seek {W : Type} (s : Sys W) (frame_index : Nat) : Sys W :=
  s.set { s.attrs with frame_offset := u64 frame_index, frame_offset_modified := true }

/-- Modelled from the spec: the controller's write of `loops_at_end` (section 3). -/
def set_loops_at_end {W : Type} (s : Sys W) (loops : Bool) : Sys W :=
  s.set { s.attrs with loops_at_end := loops }

/-- Modelled from the spec: the controller's write of `playback_volume`, which
`set_device_volume` then forwards to the device (`set_volume(v)` of section 4.3). -/
def set_playback_volume {W : Type} (s : Sys W) (volume : ℚ) : Sys W :=
  s.set { s.attrs with playback_volume := volume }

/-! ## Vocabulary for statements about one call -/

/-- The external calls made between two states: the entries appended to the log. -/
def new_calls {W : Type} (before after : Sys W) : List Call :=
  after.calls.drop before.calls.length

/-- The external calls made by one call of `audio_stream_callback`. -/
def callback_calls {W : Type} (E : Ext W) (s : Sys W) (pOutput : List Nat) (frameCount : Nat) :
    List Call :=
  new_calls s (audio_stream_callback E s pOutput frameCount).1

/-- Whether a log entry is a decoder read. -/
def is_read : Call → Bool
  | Call.ma_decoder_read_pcm_frames _ _ _ _ => true
  | _ => false

/-- The resampler call made by `handle_speed_controlled_playback` in state `s`
(when the read returned at least one frame). -/
def resample_out {W : Type} (E : Ext W) (s : Sys W) (frameCount : Nat) : ProcOut W :=
  E.ma_resampler_process_pcm_frames (scratch_read E s frameCount).world
    (scratch_read E s frameCount).data (scratch_read E s frameCount).num_read_frames frameCount

/-- The value of `frame_offset` after line 261 of `handle_speed_controlled_playback`:
advanced by the frames the resampler consumed if the read returned frames,
unchanged otherwise. -/
def speed_path_offset {W : Type} (E : Ext W) (s : Sys W) (frameCount : Nat) : Nat :=
  if (scratch_read E s frameCount).num_read_frames > 0 then
    u64 (s.attrs.frame_offset + (resample_out E s frameCount).frames_in)
  else s.attrs.frame_offset

/-- The scratch buffer size `4096 * attrs->decoder.outputChannels *
ma_get_bytes_per_sample(attrs->decoder.outputFormat)` as line 135 of
`init_resampler` computes it, in `ma_uint32`. -/
def scratch_size {W : Type} (E : Ext W) (attrs : Attrs) : Nat :=
  u32 (u32 (4096 * attrs.decoder_outputChannels) *
    E.ma_get_bytes_per_sample attrs.decoder_outputFormat)

/-- Whether a log entry uses the scratch buffer or the resampler: a decoder read
into `temp_buffer`, any resampler call, `malloc` or `free`. -/
def touches_scratch : Call → Bool
  | Call.ma_decoder_read_pcm_frames Dst.temp_buffer _ _ _ => true
  | Call.ma_resampler_init _ _ _ => true
  | Call.ma_resampler_uninit => true
  | Call.ma_resampler_process_pcm_frames _ _ _ _ => true
  | Call.malloc _ _ => true
  | Call.free _ => true
  | _ => false

/-- Size of one frame in bytes, `channels * bytes_per_sample` of the decoder's
output, as a natural number. -/
def frame_size {W : Type} (E : Ext W) (attrs : Attrs) : Nat :=
  attrs.decoder_outputChannels * E.ma_get_bytes_per_sample attrs.decoder_outputFormat

/-- The output buffer as the playback device hands it to the callback: `frameCount`
frames, all bytes zero.  The device is created from the configuration of line 34
(`ma_device_config_init`), in which `noPreSilencedOutputBuffer` is left unset, so
the device silences the buffer before every callback (silence is the zero byte for
the signed and floating-point sample formats); it is opened with the decoder's
format and channel count (lines 62-64), so its frames have the decoder's frame
size. -/
def silent_buffer {W : Type} (E : Ext W) (attrs : Attrs) (frameCount : Nat) : List Nat :=
  List.replicate (frameCount * frame_size E attrs) 0

/-- One render cycle: the device calls `audio_stream_callback` with its silenced
buffer of `frameCount` frames. -/
def device_render {W : Type} (E : Ext W) (s : Sys W) (frameCount : Nat) : Sys W × List Nat :=
  audio_stream_callback E s (silent_buffer E s.attrs frameCount) frameCount

/-- The world in which the decoder read of a callback runs: the one left by the
decoder seek of lines 208-214 if a seek is pending on entry, the entry world
otherwise. -/
def world_at_read {W : Type} (E : Ext W) (s : Sys W) : W :=
  if s.attrs.frame_offset_modified then
    (E.ma_decoder_seek_to_pcm_frame s.world s.attrs.frame_offset).1
  else s.world

/-- The decoder's answer, in world `w`, to the read of lines 246-247: a read of
`frames_to_read` frames into the scratch buffer.  Stated on the external decoder
itself, not on the call made by `handle_speed_controlled_playback`. -/
def scratch_answer {W : Type} (E : Ext W) (attrs : Attrs) (w : W) (frameCount : Nat) : ReadOut W :=
  E.ma_decoder_read_pcm_frames w Dst.temp_buffer (frames_to_read E attrs frameCount)

/-- The resampler's answer to the call of lines 255-259 after the decoder read
`rd`: it is given the frames read and asked for `frameCount` output frames. -/
def resampler_answer {W : Type} (E : Ext W) (rd : ReadOut W) (frameCount : Nat) : ProcOut W :=
  E.ma_resampler_process_pcm_frames rd.world rd.data rd.num_read_frames frameCount

/-- The decoder's answer to the read of a callback entered in state `s`: at speed
1.0 or without a resampler (line 217) a read of `frameCount` frames into the output
buffer, otherwise the scratch read; in both cases after the pending seek. -/
def decoder_answer {W : Type} (E : Ext W) (s : Sys W) (frameCount : Nat) : ReadOut W :=
  if s.attrs.playback_speed = 1 ∨ s.attrs.resampler_initialized = false then
    E.ma_decoder_read_pcm_frames (world_at_read E s) Dst.pOutput frameCount
  else scratch_answer E s.attrs (world_at_read E s) frameCount

/-- The log entry of the decoder read of a callback entered in state `s`, with the
result code and frame count of the decoder's answer. -/
def read_entry {W : Type} (E : Ext W) (s : Sys W) (frameCount : Nat) : Call :=
  if s.attrs.playback_speed = 1 ∨ s.attrs.resampler_initialized = false then
    Call.ma_decoder_read_pcm_frames Dst.pOutput frameCount
      (decoder_answer E s frameCount).res (decoder_answer E s frameCount).num_read_frames
  else
    Call.ma_decoder_read_pcm_frames Dst.temp_buffer (frames_to_read E s.attrs frameCount)
      (decoder_answer E s frameCount).res (decoder_answer E s frameCount).num_read_frames

/-- The advanced value of `frame_offset` after the read of a callback entered in
state `s`: on the direct path the offset plus the frames read (line 220); on the
speed-controlled path the offset plus the frames the resampler consumed (line 261)
if frames were read, the offset itself otherwise. -/
def advanced_offset {W : Type} (E : Ext W) (s : Sys W) (frameCount : Nat) : Nat :=
  if s.attrs.playback_speed = 1 ∨ s.attrs.resampler_initialized = false then
    u64 (s.attrs.frame_offset + (decoder_answer E s frameCount).num_read_frames)
  else if 0 < (decoder_answer E s frameCount).num_read_frames then
    u64 (s.attrs.frame_offset +
      (resampler_answer E (decoder_answer E s frameCount) frameCount).frames_in)
  else s.attrs.frame_offset

/-- The operations applied to a stream: the control functions (file loads
included), the field writes of the controller, and the render callback (with the
buffer contents on entry and the frame count). -/
inductive Op where
  | check_available_playback_devices
  | seek (frame_index : Nat)
  | set_loops_at_end (loops : Bool)
  | set_playback_volume (volume : ℚ)
  | load_file (path_to_file : List Nat)
  | load_file_w (path_to_file : List Nat)
  | init_audio_stream
  | start_audio_stream
  | stop_audio_stream
  | set_playback_speed (speed : ℚ)
  | set_device_volume
  | get_device_volume
  | terminate_audio_stream
  | audio_stream_callback (pOutput : List Nat) (frameCount : Nat)

/-- One operation applied to a state (result codes and output buffers dropped). -/
def step {W : Type} (E : Ext W) (s : Sys W) : Op → Sys W
  | Op.check_available_playback_devices => (check_available_playback_devices E s).1
  | Op.seek frame_index => seek s frame_index
  | Op.set_loops_at_end loops => set_loops_at_end s loops
  | Op.set_playback_volume volume => set_playback_volume s volume
  | Op.load_file path_to_file => (load_file E s path_to_file).1
  | Op.load_file_w path_to_file => (load_file_w E s path_to_file).1
  | Op.set_device_volume => (set_device_volume E s).1
  | Op.get_device_volume => (get_device_volume E s).1
  | Op.init_audio_stream => (init_audio_stream E s).1
  | Op.start_audio_stream => (start_audio_stream E s).1
  | Op.stop_audio_stream => (stop_audio_stream E s).1
  | Op.set_playback_speed v => (set_playback_speed E s v).1
  | Op.terminate_audio_stream => (terminate_audio_stream E s).1
  | Op.audio_stream_callback pOutput frameCount => (audio_stream_callback E s pOutput frameCount).1

/-- A sequence of operations applied to a state, first operation first. -/
def run {W : Type} (E : Ext W) (s : Sys W) (ops : List Op) : Sys W :=
  ops.foldl (step E) s

/-- The state right after `init_attrs`, with an empty call log. -/
def initial {W : Type} (E : Ext W) (a : Attrs) (w : W) : Sys W :=
  { attrs := init_attrs E a, world := w, calls := [] }

/-- Every `start_audio_stream` in the sequence is applied to a state with
`audio_stream_ready = true`. -/
def starts_when_ready {W : Type} (E : Ext W) : Sys W → List Op → Prop
  | _, [] => True
  | s, Op.start_audio_stream :: ops =>
    s.attrs.audio_stream_ready = true ∧ starts_when_ready E (step E s Op.start_audio_stream) ops
  | s, op :: ops => starts_when_ready E (step E s op) ops

/-- Whether an operation is a file load. -/
def is_load : Op → Bool
  | Op.load_file _ => true
  | Op.load_file_w _ => true
  | _ => false

/-- Every file load in the sequence is applied to a state with
`resampler_initialized = false` (as after `init_attrs` or
`terminate_audio_stream`). -/
def loads_when_unset {W : Type} (E : Ext W) : Sys W → List Op → Prop
  | _, [] => True
  | s, op :: ops =>
    (is_load op = true → s.attrs.resampler_initialized = false) ∧
      loads_when_unset E (step E s op) ops

/-! ## A decoder stub for the scenarios -/

/-- Modelled from the spec: the file decoder of section 4.1, which is external to
the repository.  It holds the PCM bytes of the file and a read cursor (in frames);
a read returns fewer frames than requested only at end-of-stream and reports
end-of-stream with that read; a seek repositions the cursor and fails on an
out-of-range index. -/
structure StubDecoder where
  pcm : List Nat
  bytes_per_frame : Nat
  cursor : Nat
  deriving DecidableEq, Repr

/-- Number of frames the stub holds. -/
def StubDecoder.frames (d : StubDecoder) : Nat := d.pcm.length / d.bytes_per_frame

/-- Modelled from the spec: `read_frames(handle, dst, count)` of section 4.1. -/
def StubDecoder.read (d : StubDecoder) (count : Nat) : ReadOut StubDecoder :=
  let k : Nat := min count (d.frames - d.cursor)
  { world := { d with cursor := d.cursor + k }
    res := if k < count then ma_result.MA_AT_END else ma_result.MA_SUCCESS
    num_read_frames := k
    data := (d.pcm.drop (d.cursor * d.bytes_per_frame)).take (k * d.bytes_per_frame) }

/-- Modelled from the spec: `open(path)` of section 4.1, over a test file system in
which the first character code of a path is the channel count of the file (one
byte per sample, 48 kHz); the PCM bytes are kept and the cursor returns to 0. -/
def StubDecoder.open_file (d : StubDecoder) (path : List Nat) : OpenOut StubDecoder :=
  { world := { d with bytes_per_frame := path.headD 1, cursor := 0 }
    res := ma_result.MA_SUCCESS
    outputFormat := 1
    outputChannels := path.headD 1
    outputSampleRate := 48000 }

/-- Modelled from the spec: `seek(handle, frame_index)` of section 4.1. -/
def StubDecoder.seek (d : StubDecoder) (frame : Nat) : StubDecoder × ma_result :=
  if frame ≤ d.frames then ({ d with cursor := frame }, ma_result.MA_SUCCESS)
  else (d, ma_result.MA_ERROR)

/-- External interface whose decoder is the stub (samples of one byte); the device
and allocator always succeed and the resampler produces nothing. -/
def stubExt : Ext StubDecoder where
  ma_context_init := fun w => (w, ma_result.MA_SUCCESS)
  ma_context_get_devices := fun w => (w, ma_result.MA_SUCCESS, 1)
  ma_decoder_init_file := fun w path => w.open_file path
  ma_decoder_init_file_w := fun w path => w.open_file path
  ma_get_bytes_per_sample := fun _ => 1
  ma_device_config_init := { format := 0, channels := 0, sampleRate := 0 }
  ma_device_init := fun w _ => (w, ma_result.MA_SUCCESS)
  ma_device_uninit := fun w => w
  ma_device_start := fun w => (w, ma_result.MA_SUCCESS)
  ma_device_stop := fun w => (w, ma_result.MA_SUCCESS)
  ma_device_set_master_volume := fun w _ => (w, ma_result.MA_SUCCESS)
  ma_device_get_master_volume := fun w => (w, ma_result.MA_SUCCESS, 1)
  ma_decoder_uninit := fun w => (w, ma_result.MA_SUCCESS)
  ma_decoder_seek_to_pcm_frame := fun w k => w.seek k
  ma_decoder_read_pcm_frames := fun w _ n => w.read n
  ma_resampler_init := fun w _ _ _ _ => (w, ma_result.MA_SUCCESS)
  ma_resampler_uninit := fun w => w
  ma_resampler_process_pcm_frames := fun w _ _ _ =>
    { world := w, res := ma_result.MA_SUCCESS, frames_in := 0, frames_out := 0, data := [] }
  malloc := fun w _ => (w, some 1)
  free := fun w _ => w

/-- An `Attrs` value for a mono decoder with one-byte samples at 48 kHz, every
playback field zero (the value `init_attrs` is applied to in the scenarios). -/
def zero_attrs : Attrs where
  decoder_outputFormat := 1
  decoder_outputChannels := 1
  decoder_outputSampleRate := 48000
  deviceConfig := { format := 1, channels := 1, sampleRate := 48000 }
  num_playback_devices := 0
  frame_offset := 0
  playback_volume := 0
  playback_speed := 0
  loops_at_end := false
  frame_offset_modified := false
  audio_stream_ready := false
  audio_stream_active := false
  audio_stream_ended_naturally := false
  resampler_initialized := false
  temp_buffer := none
  temp_buffer_size := 0

/-- The state after `init_attrs` over a stub decoder holding the given bytes. -/
def stub_sys (pcm : List Nat) : Sys StubDecoder where
  attrs := init_attrs stubExt zero_attrs
  world := { pcm := pcm, bytes_per_frame := 1, cursor := 0 }
  calls := []

/-- The scenario of section 8: ten one-byte frames 101 .. 110. -/
def ten_frames : Sys StubDecoder := stub_sys [101, 102, 103, 104, 105, 106, 107, 108, 109, 110]

/-- An output buffer of four frames holding stale non-zero bytes. -/
def stale4 : List Nat := [7, 7, 7, 7]

/-- First callback of the ten-frame scenario, entered with a stale buffer. -/
def ten_frames_call1 : Sys StubDecoder × List Nat :=
  audio_stream_callback stubExt ten_frames stale4 4

/-- Second callback of the ten-frame scenario, entered with a stale buffer. -/
def ten_frames_call2 : Sys StubDecoder × List Nat :=
  audio_stream_callback stubExt ten_frames_call1.1 stale4 4

/-- The ten-frame scenario after two callbacks: the cursor is at frame 8. -/
def ten_frames_at_8 : Sys StubDecoder := ten_frames_call2.1

/-- The ten-frame scenario at frame 8 with looping switched on. -/
def looping_at_8 : Sys StubDecoder :=
  ten_frames_at_8.set { ten_frames_at_8.attrs with loops_at_end := true }

/-- The ten-frame scenario with a pending seek to frame 6. -/
def seek_to_6 : Sys StubDecoder :=
  ten_frames.set { ten_frames.attrs with frame_offset := 6, frame_offset_modified := true }

/-- The ten-frame scenario with the stream initialized, after two callbacks. -/
def ready_at_8 : Sys StubDecoder :=
  (audio_stream_callback stubExt
    (audio_stream_callback stubExt (init_audio_stream stubExt ten_frames).1 stale4 4).1 stale4 4).1

/-- The stub interface with an allocator that always fails. -/
def oomExt : Ext StubDecoder := { stubExt with malloc := fun w _ => (w, none) }

/-- A state with a pending seek and a failed scratch allocation behind it: the
stream is initialized, `set_playback_speed(2.0)` fails in `malloc`, and the
controller then requests a seek to frame 6. -/
def pending_after_oom : Sys StubDecoder :=
  (set_playback_speed oomExt (init_audio_stream oomExt ten_frames).1 2).1.set
    { (set_playback_speed oomExt (init_audio_stream oomExt ten_frames).1 2).1.attrs with
      frame_offset := 6, frame_offset_modified := true }

/-- The stub interface with a device whose start always fails. -/
def failStartExt : Ext StubDecoder :=
  { stubExt with ma_device_start := fun w => (w, ma_result.MA_ERROR) }

/-- The ten-frame scenario with speed 2.0 stored before the stream is initialized,
over the failing allocator. -/
def speed2_unready : Sys StubDecoder := (set_playback_speed oomExt ten_frames 2).1

/-- The stub interface with a resampler that turns two input frames into one
output frame: it produces `min(framesOut, framesIn / 2)` frames (every other input
byte) and reports twice that many input frames as consumed. -/
def pairingExt : Ext StubDecoder :=
  { stubExt with
    ma_resampler_process_pcm_frames := fun w data framesIn framesOut =>
      { world := w
        res := ma_result.MA_SUCCESS
        frames_in := 2 * min framesOut (framesIn / 2)
        frames_out := min framesOut (framesIn / 2)
        data := (List.range (min framesOut (framesIn / 2))).map (fun i => data.getD (2 * i) 0) } }

/-- A decoder holding twenty one-byte frames 101 .. 120, initialized and set to
double speed over the pairing resampler; no frame has been read yet. -/
def double_speed : Sys StubDecoder :=
  (set_playback_speed pairingExt
    (init_audio_stream pairingExt
      (stub_sys [101, 102, 103, 104, 105, 106, 107, 108, 109, 110,
        111, 112, 113, 114, 115, 116, 117, 118, 119, 120])).1 2).1

/-- A decoder holding five one-byte frames 101 .. 105, initialized and set to
double speed over the pairing resampler; no frame has been read yet. -/
def double_speed_5 : Sys StubDecoder :=
  (set_playback_speed pairingExt
    (init_audio_stream pairingExt (stub_sys [101, 102, 103, 104, 105])).1 2).1

/-- The five-frame double-speed scenario with looping switched on. -/
def double_speed_5_looping : Sys StubDecoder :=
  double_speed_5.set { double_speed_5.attrs with loops_at_end := true }

/-- The five-frame double-speed scenario after one callback: the decoder is
exhausted. -/
def double_speed_5_done : Sys StubDecoder :=
  (audio_stream_callback pairingExt double_speed_5 stale4 4).1

/-- The value of the `float` literal `0.7f`: the binary32 number nearest to 0.7. -/
def f32_0_7 : ℚ := 11744051 / 16777216

/-- A reload with the resampler running: a four-channel file is loaded, the stream
initialized and set to double speed, then a one-channel file is loaded. -/
def reload_ops : List Op :=
  [Op.load_file [4], Op.init_audio_stream, Op.set_playback_speed 2, Op.load_file [1]]

/-- The state after the reload sequence on the stub. -/
def reloaded : Sys StubDecoder :=
  run stubExt (initial stubExt zero_attrs ten_frames.world) reload_ops

/-- A load followed by initialization and a speed change, the order the state
machine of section 5 prescribes. -/
def load_then_speed_ops : List Op :=
  [Op.load_file [2], Op.init_audio_stream, Op.set_playback_speed 2]

/-! ## Theorems -/

/-! ### Helper lemmas -/

/-- The calls appended to a log are recovered by `new_calls`. -/
theorem drop_length_append (l m : List Call) : (l ++ m).drop l.length = m := by
  simp


/-- State after the seek-servicing block: only `frame_offset_modified` is cleared. -/
theorem service_seek_attrs {W : Type} (E : Ext W) (s : Sys W) :
    (service_seek E s).attrs = { s.attrs with frame_offset_modified := false } := by
  obtain ⟨a, w, c⟩ := s
  cases a
  unfold service_seek
  split <;> simp_all [Sys.ext, Sys.set]

/-- Calls of the seek-servicing block: one seek to `frame_offset` if the flag is set. -/
theorem service_seek_calls {W : Type} (E : Ext W) (s : Sys W) :
    (service_seek E s).calls = s.calls ++
      (if s.attrs.frame_offset_modified then
        [Call.ma_decoder_seek_to_pcm_frame s.attrs.frame_offset] else []) := by
  unfold service_seek
  split <;> simp [Sys.ext, Sys.set]

/-- State after end-of-stream handling. -/
theorem handle_end_of_stream_attrs {W : Type} (E : Ext W) (s : Sys W) :
    (handle_end_of_stream E s).attrs =
      if s.attrs.loops_at_end then { s.attrs with frame_offset := 0 }
      else { s.attrs with audio_stream_active := false, audio_stream_ended_naturally := true } := by
  unfold handle_end_of_stream
  split <;> simp [Sys.ext, Sys.set]

/-- Calls of end-of-stream handling: a seek to frame 0 when looping, none otherwise. -/
theorem handle_end_of_stream_calls {W : Type} (E : Ext W) (s : Sys W) :
    (handle_end_of_stream E s).calls = s.calls ++
      (if s.attrs.loops_at_end then [Call.ma_decoder_seek_to_pcm_frame 0] else []) := by
  unfold handle_end_of_stream
  split <;> simp [Sys.ext, Sys.set]

/-- State after the resample-or-silence block: only `frame_offset` may change. -/
theorem resample_or_silence_attrs {W : Type} (E : Ext W) (s : Sys W) (rd : ReadOut W)
    (pOutput : List Nat) (frameCount : Nat) :
    (resample_or_silence E s rd pOutput frameCount).1.attrs =
      if rd.num_read_frames > 0 then
        { s.attrs with frame_offset := u64 (s.attrs.frame_offset +
          (E.ma_resampler_process_pcm_frames s.world rd.data rd.num_read_frames frameCount).frames_in) }
      else s.attrs := by
  unfold resample_or_silence
  by_cases h : rd.num_read_frames > 0
  · simp only [h, if_true]
    split <;> simp [Sys.ext, Sys.set]
  · simp only [h, if_false]

/-- Calls of the resample-or-silence block: one resampler call if frames were read. -/
theorem resample_or_silence_calls {W : Type} (E : Ext W) (s : Sys W) (rd : ReadOut W)
    (pOutput : List Nat) (frameCount : Nat) :
    (resample_or_silence E s rd pOutput frameCount).1.calls = s.calls ++
      (if rd.num_read_frames > 0 then
        [Call.ma_resampler_process_pcm_frames rd.num_read_frames frameCount
          (E.ma_resampler_process_pcm_frames s.world rd.data rd.num_read_frames frameCount).frames_in
          (E.ma_resampler_process_pcm_frames s.world rd.data rd.num_read_frames frameCount).frames_out]
      else []) := by
  unfold resample_or_silence
  by_cases h : rd.num_read_frames > 0
  · simp only [h, if_true]
    split <;> simp [Sys.ext, Sys.set]
  · simp [h]


/-- Calls of the direct-playback branch: the read, then a seek to 0 on a looping
end-of-stream. -/
theorem direct_playback_calls {W : Type} (E : Ext W) (s : Sys W)
    (pOutput : List Nat) (frameCount : Nat) :
    (direct_playback E s pOutput frameCount).1.calls = s.calls ++
      (Call.ma_decoder_read_pcm_frames Dst.pOutput frameCount
          (direct_read E s frameCount).res (direct_read E s frameCount).num_read_frames ::
        (if (direct_read E s frameCount).res = ma_result.MA_AT_END ∧ s.attrs.loops_at_end = true
          then [Call.ma_decoder_seek_to_pcm_frame 0] else [])) := by
  simp only [direct_playback]
  by_cases h : (direct_read E s frameCount).res = ma_result.MA_AT_END
  · by_cases hl : s.attrs.loops_at_end = true <;>
      simp [h, hl, handle_end_of_stream_calls, Sys.ext, Sys.set]
  · simp [h, Sys.ext, Sys.set]

/-- State after the direct-playback branch. -/
theorem direct_playback_attrs {W : Type} (E : Ext W) (s : Sys W)
    (pOutput : List Nat) (frameCount : Nat) :
    (direct_playback E s pOutput frameCount).1.attrs =
      if (direct_read E s frameCount).res = ma_result.MA_AT_END then
        if s.attrs.loops_at_end = true then { s.attrs with frame_offset := 0 }
        else { s.attrs with
          frame_offset := u64 (s.attrs.frame_offset + (direct_read E s frameCount).num_read_frames)
          audio_stream_active := false
          audio_stream_ended_naturally := true }
      else { s.attrs with
          frame_offset := u64 (s.attrs.frame_offset + (direct_read E s frameCount).num_read_frames) } := by
  simp only [direct_playback]
  by_cases h : (direct_read E s frameCount).res = ma_result.MA_AT_END
  · by_cases hl : s.attrs.loops_at_end = true <;>
      simp [h, hl, handle_end_of_stream_attrs, Sys.ext, Sys.set]
  · simp [h, Sys.ext, Sys.set]

/-- Calls of the speed-controlled path: the read into the scratch buffer, one
resampler call if frames were read, then a seek to 0 on a looping end-of-stream. -/
theorem handle_speed_controlled_playback_calls {W : Type} (E : Ext W) (s : Sys W)
    (pOutput : List Nat) (frameCount : Nat) :
    (handle_speed_controlled_playback E s pOutput frameCount).1.calls = s.calls ++
      (Call.ma_decoder_read_pcm_frames Dst.temp_buffer (frames_to_read E s.attrs frameCount)
          (scratch_read E s frameCount).res (scratch_read E s frameCount).num_read_frames ::
        ((if (scratch_read E s frameCount).num_read_frames > 0 then
            [Call.ma_resampler_process_pcm_frames (scratch_read E s frameCount).num_read_frames
              frameCount (resample_out E s frameCount).frames_in
              (resample_out E s frameCount).frames_out]
          else []) ++
        (if (scratch_read E s frameCount).res = ma_result.MA_AT_END ∧ s.attrs.loops_at_end = true
          then [Call.ma_decoder_seek_to_pcm_frame 0] else []))) := by
  simp only [handle_speed_controlled_playback, resample_out]
  by_cases h : (scratch_read E s frameCount).res = ma_result.MA_AT_END
  · by_cases hl : s.attrs.loops_at_end = true <;>
      by_cases hn : (scratch_read E s frameCount).num_read_frames > 0 <;>
      simp [h, hl, hn, handle_end_of_stream_calls, resample_or_silence_calls,
        resample_or_silence_attrs, Sys.ext, Sys.set]
  · by_cases hn : (scratch_read E s frameCount).num_read_frames > 0 <;>
      simp [h, hn, resample_or_silence_calls, Sys.ext, Sys.set]

/-- State after the speed-controlled path. -/
theorem handle_speed_controlled_playback_attrs {W : Type} (E : Ext W) (s : Sys W)
    (pOutput : List Nat) (frameCount : Nat) :
    (handle_speed_controlled_playback E s pOutput frameCount).1.attrs =
      if (scratch_read E s frameCount).res = ma_result.MA_AT_END then
        if s.attrs.loops_at_end = true then { s.attrs with frame_offset := 0 }
        else { s.attrs with
          frame_offset := speed_path_offset E s frameCount
          audio_stream_active := false
          audio_stream_ended_naturally := true }
      else { s.attrs with frame_offset := speed_path_offset E s frameCount } := by
  simp only [handle_speed_controlled_playback, resample_out, speed_path_offset]
  by_cases h : (scratch_read E s frameCount).res = ma_result.MA_AT_END
  · by_cases hl : s.attrs.loops_at_end = true <;>
      by_cases hn : (scratch_read E s frameCount).num_read_frames > 0 <;>
      simp [h, hl, hn, handle_end_of_stream_attrs, resample_or_silence_calls,
        resample_or_silence_attrs, Sys.ext, Sys.set]
  · by_cases hn : (scratch_read E s frameCount).num_read_frames > 0 <;>
      simp [h, hn, resample_or_silence_attrs, Sys.ext, Sys.set]


/-- C4: if `frame_offset = k` and `frame_offset_modified = true` on entry, the calls
the callback makes before its first decoder read are exactly one decoder seek to
`k`, and it ends with `frame_offset_modified = false`; if `frame_offset_modified =
false` on entry, no call (so no seek) precedes the read.  In both cases the
callback does make a decoder read. -/
theorem c4_seek_round_trip {W : Type} (E : Ext W) (s : Sys W)
    (pOutput : List Nat) (frameCount : Nat) (k : Nat) :
    (s.attrs.frame_offset = k → s.attrs.frame_offset_modified = true →
      (callback_calls E s pOutput frameCount).takeWhile (fun c => !is_read c) =
        [Call.ma_decoder_seek_to_pcm_frame k] ∧
      (callback_calls E s pOutput frameCount).any is_read = true ∧
      (audio_stream_callback E s pOutput frameCount).1.attrs.frame_offset_modified = false) ∧
    (s.attrs.frame_offset_modified = false →
      (callback_calls E s pOutput frameCount).takeWhile (fun c => !is_read c) = [] ∧
      (callback_calls E s pOutput frameCount).any is_read = true) := by
  simp only [callback_calls, new_calls, audio_stream_callback]
  split_ifs with hpath
  · simp only [direct_playback_calls, direct_playback_attrs, service_seek_calls, service_seek_attrs,
      List.append_assoc, drop_length_append]
    constructor
    · intro hk hm
      subst hk
      simp only [hm, if_true]
      refine ⟨by simp [List.takeWhile, is_read], by simp [is_read], ?_⟩
      split_ifs <;> rfl
    · intro hm
      simp [hm, List.takeWhile, is_read]
  · simp only [handle_speed_controlled_playback_calls, handle_speed_controlled_playback_attrs,
      service_seek_calls, service_seek_attrs, List.append_assoc, drop_length_append]
    constructor
    · intro hk hm
      subst hk
      simp only [hm, if_true]
      refine ⟨by simp [List.takeWhile, is_read], by simp [is_read], ?_⟩
      split_ifs <;> rfl
    · intro hm
      simp [hm, List.takeWhile, is_read]

/-- Witness for C4: with a pending seek to frame 6 the callback seeks to 6 before
reading and clears the flag. -/
theorem c4_seek_round_trip_witness :
    seek_to_6.attrs.frame_offset = 6 ∧ seek_to_6.attrs.frame_offset_modified = true ∧
    (callback_calls stubExt seek_to_6 stale4 4).takeWhile
      (fun c => !is_read c) = [Call.ma_decoder_seek_to_pcm_frame 6] ∧
    (audio_stream_callback stubExt seek_to_6 stale4 4).1.attrs.frame_offset_modified = false ∧
    (audio_stream_callback stubExt seek_to_6 stale4 4).2 = [107, 108, 109, 110] :=
  ⟨by decide, by decide,
    ((c4_seek_round_trip stubExt seek_to_6 stale4 4 6).1 (by decide) (by decide)).1,
    ((c4_seek_round_trip stubExt seek_to_6 stale4 4 6).1 (by decide) (by decide)).2.2,
    by decide⟩


/-- Clearing bytes from the start up to the end of a buffer gives all zeros. -/
theorem memset_all (buf : List Nat) (len : Nat) (h : buf.length = len) :
    memset buf 0 len = List.replicate len 0 := by
  subst h
  simp [memset]

/-- Clearing the tail of a buffer keeps the head and zeroes the rest. -/
theorem memset_tail (hd tl : List Nat) (len : Nat) (h : tl.length = len) :
    memset (hd ++ tl) hd.length len = hd ++ List.replicate len 0 := by
  subst h
  simp [memset]

/-- Speed-controlled path, frames read: without `ma_uint32` overflow of the byte
count, the output buffer is the `m` frames the resampler wrote followed by
`frameCount - m` zero frames. -/
theorem resample_or_silence_fill {W : Type} (E : Ext W) (s : Sys W) (rd : ReadOut W)
    (pOutput : List Nat) (frameCount : Nat)
    (hrd : rd.num_read_frames > 0)
    (hfc : frameCount < 2 ^ 32)
    (hlen : pOutput.length = frameCount * bytes_per_frame E s.attrs)
    (hm : (E.ma_resampler_process_pcm_frames s.world rd.data rd.num_read_frames frameCount).frames_out
      ≤ frameCount)
    (hdata : (E.ma_resampler_process_pcm_frames s.world rd.data rd.num_read_frames frameCount).data.length
      = (E.ma_resampler_process_pcm_frames s.world rd.data rd.num_read_frames frameCount).frames_out
        * bytes_per_frame E s.attrs)
    (hov : (frameCount -
      (E.ma_resampler_process_pcm_frames s.world rd.data rd.num_read_frames frameCount).frames_out)
        * bytes_per_frame E s.attrs < 2 ^ 32) :
    (resample_or_silence E s rd pOutput frameCount).2 =
      (E.ma_resampler_process_pcm_frames s.world rd.data rd.num_read_frames frameCount).data ++
      List.replicate ((frameCount -
        (E.ma_resampler_process_pcm_frames s.world rd.data rd.num_read_frames frameCount).frames_out)
          * bytes_per_frame E s.attrs) 0 := by
  generalize hpr : E.ma_resampler_process_pcm_frames s.world rd.data rd.num_read_frames frameCount
    = pr at hm hdata hov ⊢
  generalize hb : bytes_per_frame E s.attrs = b at hlen hdata hov ⊢
  have hb32 : b < 2 ^ 32 := by
    rw [← hb]; exact Nat.mod_lt _ (by norm_num)
  simp only [resample_or_silence, hrd, if_true, hpr, hb]
  by_cases hlt : pr.frames_out < frameCount
  · simp only [hlt, if_true, Sys.ext, Sys.set]
    have h1 : u32 pr.frames_out = pr.frames_out := Nat.mod_eq_of_lt (by omega)
    have h2 : u32 (frameCount + 2 ^ 32 - pr.frames_out) = frameCount - pr.frames_out := by
      unfold u32; omega
    have h3 : u32 ((frameCount - pr.frames_out) * b) = (frameCount - pr.frames_out) * b :=
      Nat.mod_eq_of_lt hov
    have h4 : u64 (pr.frames_out * b) = pr.frames_out * b := by
      apply Nat.mod_eq_of_lt
      calc pr.frames_out * b < 2 ^ 32 * 2 ^ 32 :=
            Nat.mul_lt_mul_of_lt_of_lt (by omega) hb32
        _ = 2 ^ 64 := by norm_num
    rw [h1, h2, h3, h4, store, ← hdata]
    apply memset_tail
    rw [List.length_drop, hlen, hdata, Nat.sub_mul]
  · have heq : pr.frames_out = frameCount := by omega
    simp only [hlt, if_false, Sys.ext, Sys.set, store]
    rw [List.drop_eq_nil_of_le (by rw [hlen, hdata, heq]), heq]
    simp


/-- The output buffer of the speed-controlled path is the one left by the
resample-or-silence block. -/
theorem handle_speed_controlled_playback_out {W : Type} (E : Ext W) (s : Sys W)
    (pOutput : List Nat) (frameCount : Nat) :
    (handle_speed_controlled_playback E s pOutput frameCount).2 =
      (resample_or_silence E
        (s.ext (scratch_read E s frameCount).world
          (Call.ma_decoder_read_pcm_frames Dst.temp_buffer (frames_to_read E s.attrs frameCount)
            (scratch_read E s frameCount).res (scratch_read E s frameCount).num_read_frames))
        (scratch_read E s frameCount) pOutput frameCount).2 := by
  simp only [handle_speed_controlled_playback]
  split <;> rfl

/-- Speed-controlled path, no frames read: the output buffer is the result of the
`memset` of line 272, whose byte count is computed in `ma_uint32`. -/
theorem speed_path_no_frames {W : Type} (E : Ext W) (s : Sys W)
    (pOutput : List Nat) (frameCount : Nat)
    (hrd : (scratch_read E s frameCount).num_read_frames = 0) :
    (handle_speed_controlled_playback E s pOutput frameCount).2 =
      memset pOutput 0 (u32 (frameCount * bytes_per_frame E s.attrs)) := by
  rw [handle_speed_controlled_playback_out]
  simp only [resample_or_silence, hrd, gt_iff_lt, lt_self_iff_false, if_false, Sys.ext]

/-- State after `terminate_audio_stream`: the offset and the three lifecycle flags
are reset, the resampler flag is cleared, the scratch pointer is `NULL`, and the
scratch size is reset only if the pointer was not `NULL`. -/
theorem terminate_audio_stream_attrs {W : Type} (E : Ext W) (s : Sys W) :
    (terminate_audio_stream E s).1.attrs =
      { s.attrs with
        frame_offset := 0
        audio_stream_ready := false
        audio_stream_active := false
        audio_stream_ended_naturally := false
        resampler_initialized := false
        temp_buffer := none
        temp_buffer_size := if s.attrs.temp_buffer.isSome then 0 else s.attrs.temp_buffer_size } := by
  obtain ⟨a, w, c⟩ := s
  cases a with | mk _ _ _ _ _ _ _ _ _ _ _ _ _ ri tb _ =>
  cases ri <;> cases tb <;> simp [terminate_audio_stream, Sys.ext, Sys.set]

/-- Calls of `terminate_audio_stream`: device and decoder uninit, then a
resampler uninit if the resampler is initialized, then a `free` if the scratch
pointer is not `NULL`. -/
theorem terminate_audio_stream_calls {W : Type} (E : Ext W) (s : Sys W) :
    (terminate_audio_stream E s).1.calls = s.calls ++
      ([Call.ma_device_uninit, Call.ma_decoder_uninit] ++
        (if s.attrs.resampler_initialized then [Call.ma_resampler_uninit] else []) ++
        (match s.attrs.temp_buffer with
          | some p => [Call.free p]
          | none => [])) := by
  obtain ⟨a, w, c⟩ := s
  cases a with | mk _ _ _ _ _ _ _ _ _ _ _ _ _ ri tb _ =>
  cases ri <;> cases tb <;> simp [terminate_audio_stream, Sys.ext, Sys.set]

/-- C7: `terminate_audio_stream` applied twice yields the same `Attrs` as applied
once, and the second call releases no resampler and no scratch buffer. -/
theorem c7_terminate_idempotent {W : Type} (E : Ext W) (s : Sys W) :
    (terminate_audio_stream E (terminate_audio_stream E s).1).1.attrs =
      (terminate_audio_stream E s).1.attrs ∧
    Call.ma_resampler_uninit ∉
      new_calls (terminate_audio_stream E s).1
        (terminate_audio_stream E (terminate_audio_stream E s).1).1 ∧
    ∀ p, Call.free p ∉
      new_calls (terminate_audio_stream E s).1
        (terminate_audio_stream E (terminate_audio_stream E s).1).1 := by
  refine ⟨?_, ?_, ?_⟩
  · rw [terminate_audio_stream_attrs E (terminate_audio_stream E s).1,
      terminate_audio_stream_attrs E s]
    simp
  · rw [new_calls, terminate_audio_stream_calls E (terminate_audio_stream E s).1,
      drop_length_append, terminate_audio_stream_attrs E s]
    simp
  · intro p
    rw [new_calls, terminate_audio_stream_calls E (terminate_audio_stream E s).1,
      drop_length_append, terminate_audio_stream_attrs E s]
    simp

/-- C8 (counterexample): after a failed scratch allocation and a seek request,
`terminate_audio_stream` leaves `frame_offset_modified = true` and
`temp_buffer_size = 4096`, not the values `false` and `0` that `init_attrs` gives. -/
theorem c8_terminate_keeps_seek_flag_and_size :
    (terminate_audio_stream oomExt pending_after_oom).1.attrs.frame_offset_modified = true ∧
    (terminate_audio_stream oomExt pending_after_oom).1.attrs.temp_buffer_size = 4096 ∧
    (init_attrs oomExt zero_attrs).frame_offset_modified = false ∧
    (init_attrs oomExt zero_attrs).temp_buffer_size = 0 := by
  decide!

/-- C8 (amended): after `terminate_audio_stream`, `frame_offset = 0`, the flags
`audio_stream_ready`, `audio_stream_active`, `audio_stream_ended_naturally` and
`resampler_initialized` are false and `temp_buffer = NULL`, as after `init_attrs`;
`frame_offset_modified` keeps its value; `temp_buffer_size` is 0 if `temp_buffer`
was not `NULL` on entry and keeps its value otherwise. -/
theorem c8_terminate_resets {W : Type} (E : Ext W) (s : Sys W) (a : Attrs) :
    (terminate_audio_stream E s).1.attrs.frame_offset = (init_attrs E a).frame_offset ∧
    (terminate_audio_stream E s).1.attrs.audio_stream_ready = (init_attrs E a).audio_stream_ready ∧
    (terminate_audio_stream E s).1.attrs.audio_stream_active = (init_attrs E a).audio_stream_active ∧
    (terminate_audio_stream E s).1.attrs.audio_stream_ended_naturally =
      (init_attrs E a).audio_stream_ended_naturally ∧
    (terminate_audio_stream E s).1.attrs.resampler_initialized =
      (init_attrs E a).resampler_initialized ∧
    (terminate_audio_stream E s).1.attrs.temp_buffer = (init_attrs E a).temp_buffer ∧
    (terminate_audio_stream E s).1.attrs.frame_offset_modified = s.attrs.frame_offset_modified ∧
    (terminate_audio_stream E s).1.attrs.temp_buffer_size =
      (if s.attrs.temp_buffer.isSome then (init_attrs E a).temp_buffer_size
        else s.attrs.temp_buffer_size) := by
  rw [terminate_audio_stream_attrs]
  simp [init_attrs]


/-- Frame of `init_resampler`: it changes at most `resampler_initialized`,
`temp_buffer` and `temp_buffer_size`. -/
theorem init_resampler_frame {W : Type} (E : Ext W) (s : Sys W) :
    ∃ ri tb sz, (init_resampler E s).1.attrs =
      { s.attrs with resampler_initialized := ri, temp_buffer := tb, temp_buffer_size := sz } := by
  obtain ⟨a, w, c⟩ := s
  cases a with | mk _ _ _ _ _ _ _ _ _ _ _ _ _ ri tb sz =>
  simp only [init_resampler]
  split_ifs
  · split <;> exact ⟨_, _, _, rfl⟩
  · exact ⟨_, _, _, rfl⟩
  · split <;> exact ⟨_, _, _, rfl⟩
  · exact ⟨_, _, _, rfl⟩

/-- Frame of `set_playback_speed` for a positive speed: it stores the speed and
changes at most the resampler flag and the scratch buffer fields besides. -/
theorem set_playback_speed_frame {W : Type} (E : Ext W) (s : Sys W) (v : ℚ) (hv : 0 < v) :
    ∃ ri tb sz, (set_playback_speed E s v).1.attrs =
      { s.attrs with
        playback_speed := v, resampler_initialized := ri, temp_buffer := tb,
        temp_buffer_size := sz } := by
  have hnot : ¬ v ≤ 0 := not_le.mpr hv
  simp only [set_playback_speed, hnot, if_false]
  split_ifs
  · split
    · exact ⟨_, _, _, rfl⟩
    · refine ⟨false, none, s.attrs.temp_buffer_size, ?_⟩
      simp_all [Sys.ext, Sys.set]
  · obtain ⟨a, w, c⟩ := s
    cases a
    exact ⟨_, _, _, rfl⟩
  · obtain ⟨ri, tb, sz, h⟩ := init_resampler_frame E (s.set { s.attrs with playback_speed := v })
    exact ⟨ri, tb, sz, by rw [h]; rfl⟩
  · obtain ⟨a, w, c⟩ := s
    cases a
    exact ⟨_, _, _, rfl⟩

/-- A non-positive speed is rejected and the state is returned as it was. -/
theorem set_playback_speed_rejected {W : Type} (E : Ext W) (s : Sys W) (v : ℚ) (hv : v ≤ 0) :
    set_playback_speed E s v = (s, ma_result.MA_INVALID_ARGS) := by
  simp [set_playback_speed, hv]

/-- C9: for every speed `v <= 0`, `set_playback_speed` returns `MA_INVALID_ARGS`
and leaves the whole state unchanged (and makes no external call); for every
`v > 0` the stored `playback_speed` equals `v` afterwards. -/
theorem c9_set_speed_rejects_non_positive {W : Type} (E : Ext W) (s : Sys W) (v : ℚ) :
    (v ≤ 0 → set_playback_speed E s v = (s, ma_result.MA_INVALID_ARGS)) ∧
    (0 < v → (set_playback_speed E s v).1.attrs.playback_speed = v) := by
  constructor
  · exact set_playback_speed_rejected E s v
  · intro hv
    obtain ⟨ri, tb, sz, h⟩ := set_playback_speed_frame E s v hv
    rw [h]

/-- Witness for C9: speed `-1` is rejected with the state untouched, speed `2` is
stored. -/
theorem c9_set_speed_rejects_non_positive_witness :
    (-1 : ℚ) ≤ 0 ∧ (0 : ℚ) < 2 ∧
    set_playback_speed stubExt ready_at_8 (-1) = (ready_at_8, ma_result.MA_INVALID_ARGS) ∧
    (set_playback_speed stubExt ready_at_8 2).1.attrs.playback_speed = 2 :=
  ⟨by norm_num, by norm_num,
    (c9_set_speed_rejects_non_positive stubExt ready_at_8 (-1)).1 (by norm_num),
    (c9_set_speed_rejects_non_positive stubExt ready_at_8 2).2 (by norm_num)⟩


/-- Frame of `init_audio_stream`: `audio_stream_ready` is set or keeps its value,
and besides it only the resampler flag and the scratch buffer fields may change. -/
theorem init_audio_stream_frame {W : Type} (E : Ext W) (s : Sys W) :
    ∃ rdy ri tb sz, (init_audio_stream E s).1.attrs =
      { s.attrs with
        audio_stream_ready := rdy, resampler_initialized := ri, temp_buffer := tb,
        temp_buffer_size := sz } ∧
      (rdy = true ∨ rdy = s.attrs.audio_stream_ready) := by
  simp only [init_audio_stream]
  split_ifs
  · obtain ⟨a, w, c⟩ := s
    cases a
    exact ⟨_, _, _, _, rfl, Or.inr rfl⟩
  · obtain ⟨ri, tb, sz, h⟩ := init_resampler_frame E (s.ext
      (E.ma_device_init s.world s.attrs.deviceConfig).1 Call.ma_device_init)
    exact ⟨s.attrs.audio_stream_ready, ri, tb, sz, by simp only [Sys.ext] at h ⊢; rw [h],
      Or.inr rfl⟩
  · obtain ⟨ri, tb, sz, h⟩ := init_resampler_frame E (s.ext
      (E.ma_device_init s.world s.attrs.deviceConfig).1 Call.ma_device_init)
    exact ⟨true, ri, tb, sz, by simp only [Sys.ext, Sys.set] at h ⊢; rw [h], Or.inl rfl⟩
  · obtain ⟨a, w, c⟩ := s
    cases a
    exact ⟨_, _, _, _, rfl, Or.inl rfl⟩

/-- The callback leaves `audio_stream_ready` alone, and `audio_stream_active`
either keeps its value or becomes false. -/
theorem audio_stream_callback_flags {W : Type} (E : Ext W) (s : Sys W)
    (pOutput : List Nat) (frameCount : Nat) :
    (audio_stream_callback E s pOutput frameCount).1.attrs.audio_stream_ready =
      s.attrs.audio_stream_ready ∧
    ((audio_stream_callback E s pOutput frameCount).1.attrs.audio_stream_active =
        s.attrs.audio_stream_active ∨
      (audio_stream_callback E s pOutput frameCount).1.attrs.audio_stream_active = false) := by
  simp only [audio_stream_callback]
  split_ifs
  · rw [direct_playback_attrs]
    split_ifs <;> simp [service_seek_attrs]
  · rw [handle_speed_controlled_playback_attrs]
    split_ifs <;> simp [service_seek_attrs]

/-- Frame of `check_available_playback_devices`: it changes at most
`num_playback_devices`. -/
theorem check_available_playback_devices_frame {W : Type} (E : Ext W) (s : Sys W) :
    ∃ n, (check_available_playback_devices E s).1.attrs =
      { s.attrs with num_playback_devices := n } := by
  simp only [check_available_playback_devices]
  split_ifs
  · exact ⟨s.attrs.num_playback_devices, rfl⟩
  · exact ⟨_, rfl⟩

/-- Each operation keeps `active implies ready`, provided a start is only applied
to a ready state. -/
theorem step_active_ready {W : Type} (E : Ext W) (s : Sys W) (op : Op)
    (hinv : s.attrs.audio_stream_active = true → s.attrs.audio_stream_ready = true)
    (hstart : op = Op.start_audio_stream → s.attrs.audio_stream_ready = true) :
    (step E s op).attrs.audio_stream_active = true → (step E s op).attrs.audio_stream_ready = true := by
  cases op with
  | init_audio_stream =>
    obtain ⟨rdy, ri, tb, sz, h, hr⟩ := init_audio_stream_frame E s
    simp only [step, h]
    intro ha
    rcases hr with hr | hr
    · exact hr
    · rw [hr]; exact hinv ha
  | start_audio_stream =>
    intro _
    simpa [step, start_audio_stream, Sys.ext, Sys.set] using hstart rfl
  | stop_audio_stream => simp [step, stop_audio_stream, Sys.ext, Sys.set]
  | set_playback_speed v =>
    by_cases hv : 0 < v
    · obtain ⟨ri, tb, sz, h⟩ := set_playback_speed_frame E s v hv
      simp only [step, h]
      exact hinv
    · have h := set_playback_speed_rejected E s v (not_lt.mp hv)
      simp only [step, h]
      exact hinv
  | set_device_volume => simpa [step, set_device_volume, Sys.ext] using hinv
  | get_device_volume => simpa [step, get_device_volume, Sys.ext, Sys.set] using hinv
  | load_file p => simpa [step, load_file, Sys.ext, Sys.set] using hinv
  | load_file_w p => simpa [step, load_file_w, Sys.ext, Sys.set] using hinv
  | check_available_playback_devices =>
    obtain ⟨n, h⟩ := check_available_playback_devices_frame E s
    simp only [step, h]
    exact hinv
  | seek k => simpa [step, seek, Sys.set] using hinv
  | set_loops_at_end b => simpa [step, set_loops_at_end, Sys.set] using hinv
  | set_playback_volume v => simpa [step, set_playback_volume, Sys.set] using hinv
  | terminate_audio_stream => simp [step, terminate_audio_stream_attrs]
  | audio_stream_callback p n =>
    obtain ⟨h1, h2⟩ := audio_stream_callback_flags E s p n
    simp only [step, h1]
    intro ha
    rcases h2 with h2 | h2
    · exact hinv (h2 ▸ ha)
    · rw [h2] at ha; cases ha


/-- Along a sequence in which every start is applied to a ready state, `active
implies ready` is carried from the first state to the last. -/
theorem run_active_ready {W : Type} (E : Ext W) (ops : List Op) (s : Sys W)
    (hinv : s.attrs.audio_stream_active = true → s.attrs.audio_stream_ready = true)
    (hg : starts_when_ready E s ops) :
    (run E s ops).attrs.audio_stream_active = true → (run E s ops).attrs.audio_stream_ready = true := by
  induction ops generalizing s with
  | nil => exact hinv
  | cons op ops ih =>
    have hrun : run E s (op :: ops) = run E (step E s op) ops := rfl
    rw [hrun]
    cases op with
    | start_audio_stream =>
      exact ih _ (step_active_ready E s _ hinv (fun _ => hg.1)) hg.2
    | init_audio_stream => exact ih _ (step_active_ready E s _ hinv (by simp)) hg
    | stop_audio_stream => exact ih _ (step_active_ready E s _ hinv (by simp)) hg
    | set_playback_speed v => exact ih _ (step_active_ready E s _ hinv (by simp)) hg
    | set_device_volume => exact ih _ (step_active_ready E s _ hinv (by simp)) hg
    | get_device_volume => exact ih _ (step_active_ready E s _ hinv (by simp)) hg
    | load_file p => exact ih _ (step_active_ready E s _ hinv (by simp)) hg
    | load_file_w p => exact ih _ (step_active_ready E s _ hinv (by simp)) hg
    | check_available_playback_devices =>
      exact ih _ (step_active_ready E s _ hinv (by simp)) hg
    | seek k => exact ih _ (step_active_ready E s _ hinv (by simp)) hg
    | set_loops_at_end b => exact ih _ (step_active_ready E s _ hinv (by simp)) hg
    | set_playback_volume v => exact ih _ (step_active_ready E s _ hinv (by simp)) hg
    | terminate_audio_stream => exact ih _ (step_active_ready E s _ hinv (by simp)) hg
    | audio_stream_callback p n => exact ih _ (step_active_ready E s _ hinv (by simp)) hg

/-- C10 (counterexample): `start_audio_stream` right after `init_attrs` gives a
state with `audio_stream_active = true` and `audio_stream_ready = false`. -/
theorem c10_start_before_init_breaks_invariant :
    (run stubExt (initial stubExt zero_attrs ten_frames.world)
      [Op.start_audio_stream]).attrs.audio_stream_active = true ∧
    (run stubExt (initial stubExt zero_attrs ten_frames.world)
      [Op.start_audio_stream]).attrs.audio_stream_ready = false := by
  decide

/-- C10 (amended): in every state reached from `init_attrs` by a sequence of
`init_audio_stream`, `start_audio_stream`, `stop_audio_stream`,
`set_playback_speed`, `terminate_audio_stream` and `audio_stream_callback` in which
every `start_audio_stream` is applied to a state with `audio_stream_ready = true`,
`audio_stream_active = true` implies `audio_stream_ready = true`, whatever the
external calls return. -/
theorem c10_active_implies_ready {W : Type} (E : Ext W) (a : Attrs) (w : W) (ops : List Op)
    (hg : starts_when_ready E (initial E a w) ops)
    (hact : (run E (initial E a w) ops).attrs.audio_stream_active = true) :
    (run E (initial E a w) ops).attrs.audio_stream_ready = true :=
  run_active_ready E ops (initial E a w) (by simp [initial, init_attrs]) hg hact

/-- Witness for C10: initialize, start, render one buffer; the stream is active
and ready. -/
theorem c10_active_implies_ready_witness :
    starts_when_ready stubExt (initial stubExt zero_attrs ten_frames.world)
      [Op.init_audio_stream, Op.start_audio_stream, Op.audio_stream_callback stale4 4] ∧
    (run stubExt (initial stubExt zero_attrs ten_frames.world)
      [Op.init_audio_stream, Op.start_audio_stream,
        Op.audio_stream_callback stale4 4]).attrs.audio_stream_active = true ∧
    (run stubExt (initial stubExt zero_attrs ten_frames.world)
      [Op.init_audio_stream, Op.start_audio_stream,
        Op.audio_stream_callback stale4 4]).attrs.audio_stream_ready = true :=
  ⟨by simp [starts_when_ready]; decide, by decide,
    c10_active_implies_ready stubExt zero_attrs ten_frames.world _
      (by simp [starts_when_ready]; decide) (by decide)⟩


/-- C12 (counterexample): when the device start fails, `start_audio_stream`
returns the failure and `audio_stream_active` is true afterwards all the same. -/
theorem c12_start_failure_sets_active :
    (start_audio_stream failStartExt ten_frames).2 = ma_result.MA_ERROR ∧
    (start_audio_stream failStartExt ten_frames).1.attrs.audio_stream_active = true := by
  decide

/-- C12 (amended): `start_audio_stream` returns the result of the device start,
and afterwards `audio_stream_active` is true whatever that result is; no other
field changes. -/
theorem c12_start_sets_active {W : Type} (E : Ext W) (s : Sys W) :
    (start_audio_stream E s).2 = (E.ma_device_start s.world).2 ∧
    (start_audio_stream E s).1.attrs.audio_stream_active = true ∧
    (start_audio_stream E s).1.attrs = { s.attrs with audio_stream_active := true } ∧
    new_calls s (start_audio_stream E s).1 = [Call.ma_device_start] := by
  simp [start_audio_stream, Sys.ext, Sys.set, new_calls]

/-- C17: with `audio_stream_ready = false` and `v > 0`, `set_playback_speed`
returns `MA_SUCCESS`, stores `playback_speed = v`, leaves every other field
unchanged and makes no external call (no resampler is initialized or released). -/
theorem c17_set_speed_before_ready {W : Type} (E : Ext W) (s : Sys W) (v : ℚ)
    (hready : s.attrs.audio_stream_ready = false) (hv : 0 < v) :
    (set_playback_speed E s v).2 = ma_result.MA_SUCCESS ∧
    (set_playback_speed E s v).1.attrs = { s.attrs with playback_speed := v } ∧
    (set_playback_speed E s v).1.world = s.world ∧
    (set_playback_speed E s v).1.calls = s.calls := by
  have hnot : ¬ v ≤ 0 := not_le.mpr hv
  simp [set_playback_speed, hnot, hready, Sys.set]

/-- Witness for C17: speed 2 set on the ten-frame scenario before the stream is
initialized. -/
theorem c17_set_speed_before_ready_witness :
    ten_frames.attrs.audio_stream_ready = false ∧ (0 : ℚ) < 2 ∧
    (set_playback_speed stubExt ten_frames 2).2 = ma_result.MA_SUCCESS ∧
    (set_playback_speed stubExt ten_frames 2).1.attrs =
      { ten_frames.attrs with playback_speed := 2 } ∧
    (set_playback_speed stubExt ten_frames 2).1.calls = [] :=
  ⟨by decide, by norm_num,
    (c17_set_speed_before_ready stubExt ten_frames 2 (by decide) (by norm_num)).1,
    (c17_set_speed_before_ready stubExt ten_frames 2 (by decide) (by norm_num)).2.1,
    (c17_set_speed_before_ready stubExt ten_frames 2 (by decide) (by norm_num)).2.2.2⟩

/-- C18 (counterexample): `terminate_audio_stream` applied to the ten-frame
scenario at frame 8 changes `frame_offset` from 8 to 0. -/
theorem c18_terminate_writes_frame_offset :
    ten_frames_at_8.attrs.frame_offset = 8 ∧
    (terminate_audio_stream stubExt ten_frames_at_8).1.attrs.frame_offset = 0 := by
  decide

/-- C18 (amended): `init_audio_stream`, `init_resampler`, `start_audio_stream`,
`stop_audio_stream`, `set_playback_speed`, `set_device_volume` and
`get_device_volume` leave `frame_offset` and `frame_offset_modified` as they were,
whatever the external calls return; `terminate_audio_stream` leaves
`frame_offset_modified` as it was and resets `frame_offset` to 0. -/
theorem c18_frame_offset_writers {W : Type} (E : Ext W) (s : Sys W) (v : ℚ) :
    ((init_audio_stream E s).1.attrs.frame_offset = s.attrs.frame_offset ∧
      (init_audio_stream E s).1.attrs.frame_offset_modified = s.attrs.frame_offset_modified) ∧
    ((init_resampler E s).1.attrs.frame_offset = s.attrs.frame_offset ∧
      (init_resampler E s).1.attrs.frame_offset_modified = s.attrs.frame_offset_modified) ∧
    ((start_audio_stream E s).1.attrs.frame_offset = s.attrs.frame_offset ∧
      (start_audio_stream E s).1.attrs.frame_offset_modified = s.attrs.frame_offset_modified) ∧
    ((stop_audio_stream E s).1.attrs.frame_offset = s.attrs.frame_offset ∧
      (stop_audio_stream E s).1.attrs.frame_offset_modified = s.attrs.frame_offset_modified) ∧
    ((set_playback_speed E s v).1.attrs.frame_offset = s.attrs.frame_offset ∧
      (set_playback_speed E s v).1.attrs.frame_offset_modified = s.attrs.frame_offset_modified) ∧
    ((set_device_volume E s).1.attrs.frame_offset = s.attrs.frame_offset ∧
      (set_device_volume E s).1.attrs.frame_offset_modified = s.attrs.frame_offset_modified) ∧
    ((get_device_volume E s).1.attrs.frame_offset = s.attrs.frame_offset ∧
      (get_device_volume E s).1.attrs.frame_offset_modified = s.attrs.frame_offset_modified) ∧
    ((terminate_audio_stream E s).1.attrs.frame_offset = 0 ∧
      (terminate_audio_stream E s).1.attrs.frame_offset_modified =
        s.attrs.frame_offset_modified) := by
  refine ⟨?_, ?_, ?_, ?_, ?_, ?_, ?_, ?_⟩
  · obtain ⟨rdy, ri, tb, sz, h, _⟩ := init_audio_stream_frame E s
    rw [h]; exact ⟨rfl, rfl⟩
  · obtain ⟨ri, tb, sz, h⟩ := init_resampler_frame E s
    rw [h]; exact ⟨rfl, rfl⟩
  · simp [start_audio_stream, Sys.ext, Sys.set]
  · simp [stop_audio_stream, Sys.ext, Sys.set]
  · by_cases hv : 0 < v
    · obtain ⟨ri, tb, sz, h⟩ := set_playback_speed_frame E s v hv
      rw [h]; exact ⟨rfl, rfl⟩
    · rw [set_playback_speed_rejected E s v (not_lt.mp hv)]
      exact ⟨rfl, rfl⟩
  · simp [set_device_volume, Sys.ext, Sys.set]
  · simp [get_device_volume, Sys.ext, Sys.set]
  · rw [terminate_audio_stream_attrs]; exact ⟨rfl, rfl⟩


/-- Shape of `init_resampler`: with `res` the result of the resampler init and `m`
the pointer returned by `malloc`, the calls are an uninit (if the resampler was
initialized), the init, and after a successful init the `malloc` followed by an
uninit if it returned `NULL`; the result is `res` on an init failure,
`MA_OUT_OF_MEMORY` on an allocation failure and `MA_SUCCESS` otherwise; the state
has the resampler flag set exactly when both succeeded, and the scratch fields are
written whenever the init succeeded. -/
theorem init_resampler_shape {W : Type} (E : Ext W) (s : Sys W) :
    ∃ (res : ma_result) (m : Option Nat) (eff : Nat),
      (init_resampler E s).1.calls = s.calls ++
        ((if s.attrs.resampler_initialized then [Call.ma_resampler_uninit] else []) ++
          Call.ma_resampler_init eff s.attrs.deviceConfig.sampleRate res ::
            (if res = ma_result.MA_SUCCESS then
              Call.malloc (scratch_size E s.attrs) m ::
                (if m.isNone then [Call.ma_resampler_uninit] else [])
            else [])) ∧
      (init_resampler E s).2 =
        (if res = ma_result.MA_SUCCESS then
          (if m.isNone then ma_result.MA_OUT_OF_MEMORY else ma_result.MA_SUCCESS)
        else res) ∧
      (init_resampler E s).1.attrs =
        (if res = ma_result.MA_SUCCESS then
          { s.attrs with
            resampler_initialized := m.isSome
            temp_buffer := m
            temp_buffer_size := scratch_size E s.attrs }
        else { s.attrs with resampler_initialized := false }) := by
  obtain ⟨a, w, c⟩ := s
  cases a with | mk fmt ch rate cfg npd fo vol spd lp fom rdy act ended ri tb sz =>
  cases ri
  · refine ⟨(E.ma_resampler_init w fmt ch (f32_to_u32 (f32_mul rate spd)) cfg.sampleRate).2,
      (E.malloc (E.ma_resampler_init w fmt ch (f32_to_u32 (f32_mul rate spd)) cfg.sampleRate).1
        (u32 (u32 (4096 * ch) * E.ma_get_bytes_per_sample fmt))).2,
      f32_to_u32 (f32_mul rate spd), ?_⟩
    simp only [init_resampler, Sys.ext, Sys.set, scratch_size, Bool.false_eq_true, if_false]
    generalize E.ma_resampler_init w fmt ch (f32_to_u32 (f32_mul rate spd)) cfg.sampleRate = r
    by_cases hres : r.2 = ma_result.MA_SUCCESS
    · simp only [hres, if_true]
      generalize E.malloc r.1 (u32 (u32 (4096 * ch) * E.ma_get_bytes_per_sample fmt)) = m
      rcases m with ⟨mw, _ | p⟩ <;> simp
    · simp [hres]
  · refine ⟨(E.ma_resampler_init (E.ma_resampler_uninit w) fmt ch
        (f32_to_u32 (f32_mul rate spd)) cfg.sampleRate).2,
      (E.malloc (E.ma_resampler_init (E.ma_resampler_uninit w) fmt ch
        (f32_to_u32 (f32_mul rate spd)) cfg.sampleRate).1
        (u32 (u32 (4096 * ch) * E.ma_get_bytes_per_sample fmt))).2,
      f32_to_u32 (f32_mul rate spd), ?_⟩
    simp only [init_resampler, Sys.ext, Sys.set, scratch_size, if_true]
    generalize E.ma_resampler_init (E.ma_resampler_uninit w) fmt ch
      (f32_to_u32 (f32_mul rate spd)) cfg.sampleRate = r
    by_cases hres : r.2 = ma_result.MA_SUCCESS
    · simp only [hres, if_true]
      generalize E.malloc r.1 (u32 (u32 (4096 * ch) * E.ma_get_bytes_per_sample fmt)) = m
      rcases m with ⟨mw, _ | p⟩ <;> simp
    · simp [hres]


/-- On a ready stream a positive speed other than 1 makes `set_playback_speed`
store the speed and run `init_resampler`. -/
theorem set_playback_speed_reinit {W : Type} (E : Ext W) (s : Sys W) (v : ℚ)
    (hready : s.attrs.audio_stream_ready = true) (hv : 0 < v) (hv1 : v ≠ 1) :
    set_playback_speed E s v = init_resampler E (s.set { s.attrs with playback_speed := v }) := by
  have hnot : ¬ v ≤ 0 := not_le.mpr hv
  simp [set_playback_speed, hnot, hready, hv1, Sys.set]

/-- With the resampler flag clear, the callback is the direct-playback branch and
none of its calls uses the scratch buffer or the resampler. -/
theorem callback_without_resampler {W : Type} (E : Ext W) (s : Sys W)
    (pOutput : List Nat) (frameCount : Nat) (hri : s.attrs.resampler_initialized = false) :
    audio_stream_callback E s pOutput frameCount =
      direct_playback E (service_seek E s) pOutput frameCount ∧
    (∃ res k, Call.ma_decoder_read_pcm_frames Dst.pOutput frameCount res k ∈
      callback_calls E s pOutput frameCount) ∧
    (∀ c ∈ callback_calls E s pOutput frameCount, touches_scratch c = false) := by
  have hpath : (service_seek E s).attrs.playback_speed = 1 ∨
      (service_seek E s).attrs.resampler_initialized = false := by
    right; simp [service_seek_attrs, hri]
  have hcb : audio_stream_callback E s pOutput frameCount =
      direct_playback E (service_seek E s) pOutput frameCount := by
    simp only [audio_stream_callback, hpath, if_true]
  refine ⟨hcb, ?_, ?_⟩
  · refine ⟨(direct_read E (service_seek E s) frameCount).res,
      (direct_read E (service_seek E s) frameCount).num_read_frames, ?_⟩
    simp only [callback_calls, new_calls, hcb, direct_playback_calls, service_seek_calls,
      List.append_assoc, drop_length_append]
    simp
  · intro c hc
    simp only [callback_calls, new_calls, hcb, direct_playback_calls, service_seek_calls,
      List.append_assoc, drop_length_append] at hc
    simp only [List.mem_append, List.mem_cons] at hc
    rcases hc with hc | hc | hc
    · split_ifs at hc
      · simp only [List.mem_singleton] at hc
        subst hc; rfl
      · simp at hc
    · subst hc; rfl
    · split_ifs at hc
      · simp only [List.mem_singleton] at hc
        subst hc; rfl
      · simp at hc

/-- C16: on a ready stream, if `set_playback_speed(v)` with `v > 0`, `v != 1` fails
because its `malloc` returns `NULL`, it returns `MA_OUT_OF_MEMORY`, leaves
`resampler_initialized = false`, and the next `audio_stream_callback` is the direct
path: it reads `frameCount` frames into the output buffer, and none of its calls
uses `temp_buffer` or the resampler. -/
theorem c16_alloc_failure_disables_speed_path {W : Type} (E : Ext W) (s : Sys W) (v : ℚ)
    (pOutput : List Nat) (frameCount : Nat)
    (hready : s.attrs.audio_stream_ready = true) (hv : 0 < v) (hv1 : v ≠ 1)
    (hoom : ∃ sz, Call.malloc sz none ∈ new_calls s (set_playback_speed E s v).1) :
    (set_playback_speed E s v).2 = ma_result.MA_OUT_OF_MEMORY ∧
    (set_playback_speed E s v).1.attrs.resampler_initialized = false ∧
    audio_stream_callback E (set_playback_speed E s v).1 pOutput frameCount =
      direct_playback E (service_seek E (set_playback_speed E s v).1) pOutput frameCount ∧
    (∃ res k, Call.ma_decoder_read_pcm_frames Dst.pOutput frameCount res k ∈
      callback_calls E (set_playback_speed E s v).1 pOutput frameCount) ∧
    (∀ c ∈ callback_calls E (set_playback_speed E s v).1 pOutput frameCount,
      touches_scratch c = false) := by
  obtain ⟨sz, hsz⟩ := hoom
  rw [set_playback_speed_reinit E s v hready hv hv1] at hsz ⊢
  obtain ⟨res, m, eff, hcalls, hres, hattrs⟩ :=
    init_resampler_shape E (s.set { s.attrs with playback_speed := v })
  have hfail : res = ma_result.MA_SUCCESS ∧ m = none := by
    have hs : (s.set { s.attrs with playback_speed := v }).calls = s.calls := rfl
    rw [new_calls, hcalls, hs, drop_length_append] at hsz
    simp only [List.mem_append, List.mem_cons] at hsz
    rcases hsz with hsz | hsz | hsz
    · split_ifs at hsz <;> simp at hsz
    · cases hsz
    · by_cases hr : res = ma_result.MA_SUCCESS
      · refine ⟨hr, ?_⟩
        simp only [hr, if_true, List.mem_cons] at hsz
        rcases hsz with hsz | hsz
        · injection hsz with _ h2
          exact h2.symm
        · split_ifs at hsz <;> simp at hsz
      · simp [hr] at hsz
  obtain ⟨hr, hm⟩ := hfail
  have hri : (init_resampler E (s.set { s.attrs with playback_speed := v })).1.attrs.resampler_initialized
      = false := by
    rw [hattrs]; simp [hr, hm]
  refine ⟨by rw [hres]; simp [hr, hm], hri, ?_⟩
  exact callback_without_resampler E _ pOutput frameCount hri

/-- Witness for C16: with a failing allocator, `set_playback_speed(2.0)` on the
initialized ten-frame scenario returns `MA_OUT_OF_MEMORY` and the next callback
delivers the first four frames on the direct path. -/
theorem c16_alloc_failure_disables_speed_path_witness :
    (init_audio_stream oomExt ten_frames).1.attrs.audio_stream_ready = true ∧
    (set_playback_speed oomExt (init_audio_stream oomExt ten_frames).1 2).2 =
      ma_result.MA_OUT_OF_MEMORY ∧
    (audio_stream_callback oomExt
      (set_playback_speed oomExt (init_audio_stream oomExt ten_frames).1 2).1 stale4 4).2 =
      [101, 102, 103, 104] :=
  ⟨by decide,
    (c16_alloc_failure_disables_speed_path oomExt (init_audio_stream oomExt ten_frames).1 2
      stale4 4 (by decide) (by norm_num) (by norm_num) ⟨4096, by decide!⟩).1,
    by decide!⟩


/-- Effect of `init_resampler` on the state: it changes at most the resampler flag
and the scratch fields; it returns `MA_SUCCESS` exactly when it leaves the flag
set, and then the scratch pointer is not `NULL` and the scratch size is the one of
line 135. -/
theorem init_resampler_effect {W : Type} (E : Ext W) (s : Sys W) :
    ∃ ri tb sz, (init_resampler E s).1.attrs =
        { s.attrs with resampler_initialized := ri, temp_buffer := tb, temp_buffer_size := sz } ∧
      (ri = true → tb.isSome = true ∧ sz = scratch_size E s.attrs) ∧
      ((init_resampler E s).2 = ma_result.MA_SUCCESS ↔ ri = true) := by
  obtain ⟨res, m, eff, _, hres, hattrs⟩ := init_resampler_shape E s
  by_cases hr : res = ma_result.MA_SUCCESS
  · refine ⟨m.isSome, m, scratch_size E s.attrs, ?_, ?_, ?_⟩
    · rw [hattrs]; simp [hr]
    · intro h; exact ⟨h, rfl⟩
    · rw [hres]
      cases m <;> simp [hr]
  · refine ⟨false, s.attrs.temp_buffer, s.attrs.temp_buffer_size, ?_, ?_, ?_⟩
    · rw [hattrs]; simp [hr]
    · intro h; cases h
    · rw [hres]; simp [hr]

/-- Frame of the callback: it changes at most `frame_offset`,
`frame_offset_modified`, `audio_stream_active` and `audio_stream_ended_naturally`. -/
theorem audio_stream_callback_frame {W : Type} (E : Ext W) (s : Sys W)
    (pOutput : List Nat) (frameCount : Nat) :
    ∃ fo fom act en, (audio_stream_callback E s pOutput frameCount).1.attrs =
      { s.attrs with
        frame_offset := fo, frame_offset_modified := fom, audio_stream_active := act,
        audio_stream_ended_naturally := en } := by
  simp only [audio_stream_callback]
  split_ifs
  · rw [direct_playback_attrs]
    split_ifs <;> exact ⟨_, _, _, _, by rw [service_seek_attrs]⟩
  · rw [handle_speed_controlled_playback_attrs]
    split_ifs <;> exact ⟨_, _, _, _, by rw [service_seek_attrs]⟩

/-- On a ready stream `set_playback_speed(1.0)` stores the speed and clears the
resampler flag; if the flag was set it also resets the scratch fields (the size
only when the pointer was not `NULL`). -/
theorem set_playback_speed_one {W : Type} (E : Ext W) (s : Sys W)
    (hready : s.attrs.audio_stream_ready = true) :
    (set_playback_speed E s 1).1.attrs =
      { s.attrs with
        playback_speed := 1
        resampler_initialized := false
        temp_buffer := if s.attrs.resampler_initialized then none else s.attrs.temp_buffer
        temp_buffer_size :=
          if s.attrs.resampler_initialized = true ∧ s.attrs.temp_buffer.isSome = true then 0
          else s.attrs.temp_buffer_size } ∧
    (set_playback_speed E s 1).2 = ma_result.MA_SUCCESS := by
  obtain ⟨a, w, c⟩ := s
  cases a with | mk fmt ch rate cfg npd fo vol spd lp fom rdy act ended ri tb sz =>
  simp only at hready
  subst hready
  have hnot : ¬ (1 : ℚ) ≤ 0 := by norm_num
  cases ri <;> cases tb <;> simp [set_playback_speed, hnot, Sys.ext, Sys.set]

/-- Each operation keeps the two resampler invariants: the resampler flag implies
a speed other than 1 on a ready stream, and it implies a non-`NULL` scratch
buffer, which (under condition `g`) has the size of line 135.  The size part needs
a file load to be applied with the resampler flag clear: `g` is `True` for
sequences that observe this, and `False` for arbitrary sequences. -/
theorem step_resampler_inv {W : Type} (E : Ext W) (s : Sys W) (op : Op) (g : Prop)
    (hg : is_load op = true → g → s.attrs.resampler_initialized = false)
    (h1 : s.attrs.resampler_initialized = true →
      s.attrs.playback_speed ≠ 1 ∧ s.attrs.audio_stream_ready = true)
    (h2 : s.attrs.resampler_initialized = true →
      s.attrs.temp_buffer.isSome = true ∧
      (g → s.attrs.temp_buffer_size = scratch_size E s.attrs)) :
    ((step E s op).attrs.resampler_initialized = true →
      (step E s op).attrs.playback_speed ≠ 1 ∧ (step E s op).attrs.audio_stream_ready = true) ∧
    ((step E s op).attrs.resampler_initialized = true →
      (step E s op).attrs.temp_buffer.isSome = true ∧
      (g → (step E s op).attrs.temp_buffer_size = scratch_size E (step E s op).attrs)) := by
  cases op with
  | load_file p =>
    simp only [step, load_file, Sys.ext, Sys.set]
    refine ⟨h1, fun hr => ⟨(h2 hr).1, fun hgg => ?_⟩⟩
    rw [hg rfl hgg] at hr
    cases hr
  | load_file_w p =>
    simp only [step, load_file_w, Sys.ext, Sys.set]
    refine ⟨h1, fun hr => ⟨(h2 hr).1, fun hgg => ?_⟩⟩
    rw [hg rfl hgg] at hr
    cases hr
  | check_available_playback_devices =>
    obtain ⟨n, h⟩ := check_available_playback_devices_frame E s
    simp only [step, h]
    exact ⟨h1, h2⟩
  | seek k =>
    simp only [step, seek, Sys.set]
    exact ⟨h1, h2⟩
  | set_loops_at_end b =>
    simp only [step, set_loops_at_end, Sys.set]
    exact ⟨h1, h2⟩
  | set_playback_volume v =>
    simp only [step, set_playback_volume, Sys.set]
    exact ⟨h1, h2⟩
  | start_audio_stream =>
    simp only [step, start_audio_stream, Sys.ext, Sys.set]
    exact ⟨h1, h2⟩
  | stop_audio_stream =>
    simp only [step, stop_audio_stream, Sys.ext, Sys.set]
    exact ⟨h1, h2⟩
  | set_device_volume =>
    simp only [step, set_device_volume, Sys.ext]
    exact ⟨h1, h2⟩
  | get_device_volume =>
    simp only [step, get_device_volume, Sys.ext, Sys.set]
    exact ⟨h1, h2⟩
  | terminate_audio_stream =>
    simp [step, terminate_audio_stream_attrs]
  | audio_stream_callback p n =>
    obtain ⟨fo, fom, act, en, h⟩ := audio_stream_callback_frame E s p n
    simp only [step, h]
    exact ⟨h1, h2⟩
  | init_audio_stream =>
    simp only [step, init_audio_stream]
    split_ifs with hd hsp hq
    · exact ⟨h1, h2⟩
    · obtain ⟨ri, tb, sz, h, hri, hres⟩ := init_resampler_effect E
        (s.ext (E.ma_device_init s.world s.attrs.deviceConfig).1 Call.ma_device_init)
      have hfalse : ri = false := by
        cases ri
        · rfl
        · exact absurd (hres.mpr rfl) hq
      subst hfalse
      have hx : (((init_resampler E (s.ext (E.ma_device_init s.world s.attrs.deviceConfig).1
          Call.ma_device_init)).1.ext
          (E.ma_device_uninit (init_resampler E (s.ext (E.ma_device_init s.world
            s.attrs.deviceConfig).1 Call.ma_device_init)).1.world)
          Call.ma_device_uninit).attrs.resampler_initialized) = false := by
        show (init_resampler E (s.ext (E.ma_device_init s.world s.attrs.deviceConfig).1
          Call.ma_device_init)).1.attrs.resampler_initialized = false
        rw [h]
      constructor <;> intro hr <;> rw [hx] at hr <;> cases hr
    · obtain ⟨ri, tb, sz, h, hri, hres⟩ := init_resampler_effect E
        (s.ext (E.ma_device_init s.world s.attrs.deviceConfig).1 Call.ma_device_init)
      simp only [Sys.set]
      rw [h]
      exact ⟨fun _ => ⟨hsp, trivial⟩, fun hr => ⟨(hri hr).1, fun _ => (hri hr).2⟩⟩
    · simp only [Sys.ext, Sys.set]
      simp only [Sys.ext, ne_eq, not_not] at hsp
      exact ⟨fun hr => absurd hsp (h1 hr).1, h2⟩
  | set_playback_speed v =>
    by_cases hv : 0 < v
    · by_cases hrdy : s.attrs.audio_stream_ready = true
      · by_cases hv1 : v = 1
        · subst hv1
          simp [step, (set_playback_speed_one E s hrdy).1]
        · simp only [step, set_playback_speed_reinit E s v hrdy hv hv1]
          obtain ⟨ri, tb, sz, h, hri, hres⟩ := init_resampler_effect E
            (s.set { s.attrs with playback_speed := v })
          rw [h]
          exact ⟨fun _ => ⟨hv1, hrdy⟩, fun hr => ⟨(hri hr).1, fun _ => (hri hr).2⟩⟩
      · have hrdy2 : s.attrs.audio_stream_ready = false := by
          cases hb : s.attrs.audio_stream_ready
          · rfl
          · exact absurd hb hrdy
        have hri : s.attrs.resampler_initialized = false := by
          cases hb : s.attrs.resampler_initialized
          · rfl
          · exact absurd (h1 hb).2 hrdy
        have hnot : ¬ v ≤ 0 := not_le.mpr hv
        simp [step, set_playback_speed, hnot, hrdy2, Sys.set, hri]
    · simp only [step, set_playback_speed_rejected E s v (not_lt.mp hv)]
      exact ⟨h1, h2⟩


/-- If every resampler init and every allocation succeeds, `init_resampler`
returns `MA_SUCCESS`. -/
theorem init_resampler_succeeds {W : Type} (E : Ext W) (s : Sys W)
    (hinit : ∀ w a b c d, (E.ma_resampler_init w a b c d).2 = ma_result.MA_SUCCESS)
    (halloc : ∀ w n, (E.malloc w n).2 ≠ none) :
    (init_resampler E s).2 = ma_result.MA_SUCCESS := by
  simp only [init_resampler, hinit, if_true]
  split
  · next hm => exact absurd hm (halloc _ _)
  · rfl

/-- If every resampler init and every allocation succeeds, each operation keeps
the converse invariant: a speed other than 1 on a ready stream implies the
resampler flag. -/
theorem step_resampler_converse {W : Type} (E : Ext W) (s : Sys W) (op : Op)
    (hinit : ∀ w a b c d, (E.ma_resampler_init w a b c d).2 = ma_result.MA_SUCCESS)
    (halloc : ∀ w n, (E.malloc w n).2 ≠ none)
    (h : s.attrs.playback_speed ≠ 1 ∧ s.attrs.audio_stream_ready = true →
      s.attrs.resampler_initialized = true) :
    (step E s op).attrs.playback_speed ≠ 1 ∧ (step E s op).attrs.audio_stream_ready = true →
      (step E s op).attrs.resampler_initialized = true := by
  cases op with
  | load_file p =>
    simp only [step, load_file, Sys.ext, Sys.set]
    exact h
  | load_file_w p =>
    simp only [step, load_file_w, Sys.ext, Sys.set]
    exact h
  | check_available_playback_devices =>
    obtain ⟨n, hf⟩ := check_available_playback_devices_frame E s
    simp only [step, hf]
    exact h
  | seek k =>
    simp only [step, seek, Sys.set]
    exact h
  | set_loops_at_end b =>
    simp only [step, set_loops_at_end, Sys.set]
    exact h
  | set_playback_volume v =>
    simp only [step, set_playback_volume, Sys.set]
    exact h
  | start_audio_stream =>
    simp only [step, start_audio_stream, Sys.ext, Sys.set]
    exact h
  | stop_audio_stream =>
    simp only [step, stop_audio_stream, Sys.ext, Sys.set]
    exact h
  | set_device_volume =>
    simp only [step, set_device_volume, Sys.ext]
    exact h
  | get_device_volume =>
    simp only [step, get_device_volume, Sys.ext, Sys.set]
    exact h
  | terminate_audio_stream =>
    simp [step, terminate_audio_stream_attrs]
  | audio_stream_callback p n =>
    obtain ⟨fo, fom, act, en, hf⟩ := audio_stream_callback_frame E s p n
    simp only [step, hf]
    exact h
  | init_audio_stream =>
    simp only [step, init_audio_stream]
    split_ifs with hd hsp hq
    · exact h
    · exact absurd (init_resampler_succeeds E _ hinit halloc) hq
    · obtain ⟨ri, tb, sz, hf, hri, hres⟩ := init_resampler_effect E
        (s.ext (E.ma_device_init s.world s.attrs.deviceConfig).1 Call.ma_device_init)
      simp only [Sys.set]
      rw [hf]
      intro _
      exact hres.mp (init_resampler_succeeds E _ hinit halloc)
    · simp only [Sys.ext, Sys.set]
      simp only [Sys.ext, ne_eq, not_not] at hsp
      intro hc
      exact absurd hsp hc.1
  | set_playback_speed v =>
    by_cases hv : 0 < v
    · by_cases hrdy : s.attrs.audio_stream_ready = true
      · by_cases hv1 : v = 1
        · subst hv1
          simp [step, (set_playback_speed_one E s hrdy).1]
        · simp only [step, set_playback_speed_reinit E s v hrdy hv hv1]
          obtain ⟨ri, tb, sz, hf, hri, hres⟩ := init_resampler_effect E
            (s.set { s.attrs with playback_speed := v })
          rw [hf]
          intro _
          exact hres.mp (init_resampler_succeeds E _ hinit halloc)
      · have hrdy2 : s.attrs.audio_stream_ready = false := by
          cases hb : s.attrs.audio_stream_ready
          · rfl
          · exact absurd hb hrdy
        have hnot : ¬ v ≤ 0 := not_le.mpr hv
        simp [step, set_playback_speed, hnot, hrdy2, Sys.set]
    · simp only [step, set_playback_speed_rejected E s v (not_lt.mp hv)]
      exact h

/-- Along any sequence of operations, the resampler flag implies a speed other
than 1 on a ready stream and a non-`NULL` scratch buffer; along a sequence whose
file loads are applied with the resampler flag clear (condition `g`), it also
implies a scratch buffer of the size of line 135. -/
theorem run_resampler_inv {W : Type} (E : Ext W) (ops : List Op) (s : Sys W) (g : Prop)
    (hg : g → loads_when_unset E s ops)
    (h1 : s.attrs.resampler_initialized = true →
      s.attrs.playback_speed ≠ 1 ∧ s.attrs.audio_stream_ready = true)
    (h2 : s.attrs.resampler_initialized = true →
      s.attrs.temp_buffer.isSome = true ∧
      (g → s.attrs.temp_buffer_size = scratch_size E s.attrs)) :
    ((run E s ops).attrs.resampler_initialized = true →
      (run E s ops).attrs.playback_speed ≠ 1 ∧ (run E s ops).attrs.audio_stream_ready = true) ∧
    ((run E s ops).attrs.resampler_initialized = true →
      (run E s ops).attrs.temp_buffer.isSome = true ∧
      (g → (run E s ops).attrs.temp_buffer_size = scratch_size E (run E s ops).attrs)) := by
  induction ops generalizing s with
  | nil => exact ⟨h1, h2⟩
  | cons op ops ih =>
    have hrun : run E s (op :: ops) = run E (step E s op) ops := rfl
    rw [hrun]
    have hstep := step_resampler_inv E s op g (fun hl hgg => (hg hgg).1 hl) h1 h2
    exact ih _ (fun hgg => (hg hgg).2) hstep.1 hstep.2

/-- If every resampler init and every allocation succeeds, the converse invariant
holds along any sequence of operations. -/
theorem run_resampler_converse {W : Type} (E : Ext W) (ops : List Op) (s : Sys W)
    (hinit : ∀ w a b c d, (E.ma_resampler_init w a b c d).2 = ma_result.MA_SUCCESS)
    (halloc : ∀ w n, (E.malloc w n).2 ≠ none)
    (h : s.attrs.playback_speed ≠ 1 ∧ s.attrs.audio_stream_ready = true →
      s.attrs.resampler_initialized = true) :
    (run E s ops).attrs.playback_speed ≠ 1 ∧ (run E s ops).attrs.audio_stream_ready = true →
      (run E s ops).attrs.resampler_initialized = true := by
  induction ops generalizing s with
  | nil => exact h
  | cons op ops ih =>
    have hrun : run E s (op :: ops) = run E (step E s op) ops := rfl
    rw [hrun]
    exact ih _ (step_resampler_converse E s op hinit halloc h)

/-- C11 (counterexample): with a failing allocator, `init_audio_stream` followed
by `set_playback_speed(2.0)` reaches a state with `playback_speed = 2`,
`audio_stream_ready = true` and `resampler_initialized = false`. -/
theorem c11_alloc_failure_breaks_iff :
    (run oomExt (initial oomExt zero_attrs ten_frames.world)
      [Op.init_audio_stream, Op.set_playback_speed 2]).attrs.playback_speed = 2 ∧
    (run oomExt (initial oomExt zero_attrs ten_frames.world)
      [Op.init_audio_stream, Op.set_playback_speed 2]).attrs.audio_stream_ready = true ∧
    (run oomExt (initial oomExt zero_attrs ten_frames.world)
      [Op.init_audio_stream, Op.set_playback_speed 2]).attrs.resampler_initialized = false := by
  decide!

/-- C11 (amended): in every state reached from `init_attrs` by a sequence of the
operations, whatever the external calls return, `resampler_initialized = true`
implies `playback_speed != 1.0` and `audio_stream_ready = true`; the converse holds
as well if every resampler init and every scratch allocation succeeds. -/
theorem c11_resampler_presence {W : Type} (E : Ext W) (a : Attrs) (w : W) (ops : List Op) :
    ((run E (initial E a w) ops).attrs.resampler_initialized = true →
      (run E (initial E a w) ops).attrs.playback_speed ≠ 1 ∧
      (run E (initial E a w) ops).attrs.audio_stream_ready = true) ∧
    ((∀ w a b c d, (E.ma_resampler_init w a b c d).2 = ma_result.MA_SUCCESS) →
      (∀ w n, (E.malloc w n).2 ≠ none) →
      ((run E (initial E a w) ops).attrs.resampler_initialized = true ↔
        (run E (initial E a w) ops).attrs.playback_speed ≠ 1 ∧
        (run E (initial E a w) ops).attrs.audio_stream_ready = true)) := by
  have hinv := (run_resampler_inv E ops (initial E a w) False (fun h => h.elim)
    (by simp [initial, init_attrs]) (by simp [initial, init_attrs])).1
  refine ⟨hinv, fun hinit halloc => ⟨hinv, ?_⟩⟩
  exact run_resampler_converse E ops (initial E a w) hinit halloc
    (by simp [initial, init_attrs])

/-- Witness for C11: with the stub interface (every init and allocation succeeds),
`init_audio_stream` followed by `set_playback_speed(2.0)` gives the resampler flag,
speed 2 and a ready stream. -/
theorem c11_resampler_presence_witness :
    (∀ (w : StubDecoder) a b c d, (stubExt.ma_resampler_init w a b c d).2 = ma_result.MA_SUCCESS) ∧
    (∀ (w : StubDecoder) n, (stubExt.malloc w n).2 ≠ none) ∧
    ((run stubExt (initial stubExt zero_attrs ten_frames.world)
        [Op.init_audio_stream, Op.set_playback_speed 2]).attrs.resampler_initialized = true ↔
      (run stubExt (initial stubExt zero_attrs ten_frames.world)
        [Op.init_audio_stream, Op.set_playback_speed 2]).attrs.playback_speed ≠ 1 ∧
      (run stubExt (initial stubExt zero_attrs ten_frames.world)
        [Op.init_audio_stream, Op.set_playback_speed 2]).attrs.audio_stream_ready = true) ∧
    (run stubExt (initial stubExt zero_attrs ten_frames.world)
      [Op.init_audio_stream, Op.set_playback_speed 2]).attrs.resampler_initialized = true :=
  ⟨fun _ _ _ _ _ => rfl, fun _ _ => by simp [stubExt],
    (c11_resampler_presence stubExt zero_attrs ten_frames.world
      [Op.init_audio_stream, Op.set_playback_speed 2]).2
      (fun _ _ _ _ _ => rfl) (fun _ _ => by simp [stubExt]),
    by decide!⟩


/-- The scratch size of line 135 is `4096 * bytes_per_frame` reduced modulo
`2^32`, so it is at most `4096 * bytes_per_frame`. -/
theorem scratch_size_le {W : Type} (E : Ext W) (a : Attrs) :
    scratch_size E a ≤ 4096 * bytes_per_frame E a := by
  have h : scratch_size E a = (4096 * bytes_per_frame E a) % 2 ^ 32 := by
    simp only [scratch_size, bytes_per_frame, u32]
    rw [Nat.mod_mul_mod, Nat.mul_mod_mod, Nat.mul_assoc]
  rw [h]
  exact Nat.mod_le _ _

/-- If `4096 * channels * bytes_per_sample` fits `ma_uint32`, the products the code
computes in `ma_uint32` are the exact products. -/
theorem scratch_size_exact {W : Type} (E : Ext W) (a : Attrs)
    (hfit : 4096 * a.decoder_outputChannels * E.ma_get_bytes_per_sample a.decoder_outputFormat
      < 2 ^ 32) :
    scratch_size E a =
      4096 * a.decoder_outputChannels * E.ma_get_bytes_per_sample a.decoder_outputFormat ∧
    bytes_per_frame E a =
      a.decoder_outputChannels * E.ma_get_bytes_per_sample a.decoder_outputFormat := by
  have h1 : scratch_size E a = (4096 * a.decoder_outputChannels *
      E.ma_get_bytes_per_sample a.decoder_outputFormat) % 2 ^ 32 := by
    simp only [scratch_size, u32]
    rw [Nat.mod_mul_mod]
  have h2 : a.decoder_outputChannels * E.ma_get_bytes_per_sample a.decoder_outputFormat
      < 2 ^ 32 := by
    have : a.decoder_outputChannels * E.ma_get_bytes_per_sample a.decoder_outputFormat ≤
        4096 * (a.decoder_outputChannels * E.ma_get_bytes_per_sample a.decoder_outputFormat) :=
      Nat.le_mul_of_pos_left _ (by norm_num)
    rw [← Nat.mul_assoc] at this
    exact lt_of_le_of_lt this hfit
  exact ⟨by rw [h1, Nat.mod_eq_of_lt hfit], Nat.mod_eq_of_lt h2⟩

/-- With a scratch buffer of the size of line 135, the frame count requested from
the decoder is at most 4096 and fits the buffer. -/
theorem frames_to_read_fits {W : Type} (E : Ext W) (a : Attrs) (frameCount : Nat)
    (hsz : a.temp_buffer_size = scratch_size E a) :
    frames_to_read E a frameCount ≤ 4096 ∧
    frames_to_read E a frameCount * bytes_per_frame E a ≤ a.temp_buffer_size := by
  have hmax : frames_to_read E a frameCount ≤ a.temp_buffer_size / bytes_per_frame E a := by
    simp only [frames_to_read]
    have hle : u32 (a.temp_buffer_size / bytes_per_frame E a) ≤
        a.temp_buffer_size / bytes_per_frame E a := Nat.mod_le _ _
    split_ifs with hgt
    · exact hle
    · exact le_trans (not_lt.mp hgt) hle
  constructor
  · refine le_trans hmax ?_
    rw [hsz]
    exact Nat.div_le_of_le_mul (by
      have := scratch_size_le E a
      rwa [Nat.mul_comm] at this)
  · exact le_trans (Nat.mul_le_mul_right _ hmax) (Nat.div_mul_le_self _ _)

/-- Outcome of `init_audio_stream`: on success `audio_stream_ready = true`; on
failure `audio_stream_ready` and every field other than the resampler flag and the
scratch fields keep their values, a resampler flag that was clear stays clear, a
failed device open leaves `Attrs` untouched, and after a successful device open
the last call is the device uninit. -/
theorem init_audio_stream_outcome {W : Type} (E : Ext W) (s : Sys W) :
    ((init_audio_stream E s).2 = ma_result.MA_SUCCESS →
      (init_audio_stream E s).1.attrs.audio_stream_ready = true) ∧
    ((init_audio_stream E s).2 ≠ ma_result.MA_SUCCESS →
      (∃ ri tb sz, (init_audio_stream E s).1.attrs =
          { s.attrs with resampler_initialized := ri, temp_buffer := tb, temp_buffer_size := sz } ∧
        (s.attrs.resampler_initialized = false → ri = false)) ∧
      ((E.ma_device_init s.world s.attrs.deviceConfig).2 ≠ ma_result.MA_SUCCESS →
        (init_audio_stream E s).1.attrs = s.attrs) ∧
      ((E.ma_device_init s.world s.attrs.deviceConfig).2 = ma_result.MA_SUCCESS →
        (init_audio_stream E s).1.calls.getLast? = some Call.ma_device_uninit)) := by
  simp only [init_audio_stream]
  split_ifs with hd hsp hq
  · refine ⟨fun h => absurd h hd, fun _ => ⟨?_, fun _ => rfl, fun h => absurd h hd⟩⟩
    obtain ⟨a, w, c⟩ := s
    cases a
    exact ⟨_, _, _, rfl, fun h => h⟩
  · obtain ⟨ri, tb, sz, h, hri, hres⟩ := init_resampler_effect E
      (s.ext (E.ma_device_init s.world s.attrs.deviceConfig).1 Call.ma_device_init)
    have hfalse : ri = false := by
      cases ri
      · rfl
      · exact absurd (hres.mpr rfl) hq
    subst hfalse
    refine ⟨fun hs => absurd hs hq, fun _ => ⟨⟨false, tb, sz, ?_, fun _ => rfl⟩,
      fun hf => absurd hf hd, fun _ => by simp [Sys.ext]⟩⟩
    show (init_resampler E (s.ext (E.ma_device_init s.world s.attrs.deviceConfig).1
      Call.ma_device_init)).1.attrs = _
    rw [h]
    rfl
  · refine ⟨fun _ => rfl, fun hne => absurd (not_not.mp hq) hne⟩
  · simp only [ne_eq, not_not] at hd
    exact ⟨fun _ => rfl, fun hne => absurd hd hne⟩

/-- C13 (evaluation at the failing input): with speed 2.0 stored before the stream
is ready and a failing allocator, `init_audio_stream` returns `MA_OUT_OF_MEMORY`,
closes the device again and leaves `audio_stream_ready` and
`resampler_initialized` false, but `temp_buffer_size` is 4096 afterwards although
it was 0 before: the state is not the one before the call. -/
theorem c13_failed_init_leaves_scratch_size :
    speed2_unready.attrs.audio_stream_ready = false ∧
    speed2_unready.attrs.temp_buffer_size = 0 ∧
    (init_audio_stream oomExt speed2_unready).2 = ma_result.MA_OUT_OF_MEMORY ∧
    (init_audio_stream oomExt speed2_unready).1.attrs.audio_stream_ready = false ∧
    (init_audio_stream oomExt speed2_unready).1.attrs.resampler_initialized = false ∧
    (init_audio_stream oomExt speed2_unready).1.attrs.temp_buffer = none ∧
    (init_audio_stream oomExt speed2_unready).1.calls.getLast? = some Call.ma_device_uninit ∧
    (init_audio_stream oomExt speed2_unready).1.attrs.temp_buffer_size = 4096 ∧
    (init_audio_stream oomExt speed2_unready).1.attrs ≠ speed2_unready.attrs := by
  decide!

/-- C15 (evaluation at the failing input): at double speed with `frame_offset`
equal to the decoder cursor (both 0) and no pending seek, a callback with
`frameCount = 4` reads `floor(8) + 1 = 9` frames, the resampler consumes 8 of
them, and on return the decoder cursor is 9 while `frame_offset` is 8. -/
theorem c15_speed_path_offset_lags :
    double_speed.attrs.frame_offset = double_speed.world.cursor ∧
    double_speed.attrs.frame_offset_modified = false ∧
    callback_calls pairingExt double_speed stale4 4 =
      [Call.ma_decoder_read_pcm_frames Dst.temp_buffer 9 ma_result.MA_SUCCESS 9,
        Call.ma_resampler_process_pcm_frames 9 4 8 4] ∧
    (audio_stream_callback pairingExt double_speed stale4 4).1.world.cursor = 9 ∧
    (audio_stream_callback pairingExt double_speed stale4 4).1.attrs.frame_offset = 8 ∧
    (audio_stream_callback pairingExt double_speed stale4 4).2 = [101, 103, 105, 107] := by
  decide!


/-- World after the seek-servicing block. -/
theorem service_seek_world {W : Type} (E : Ext W) (s : Sys W) :
    (service_seek E s).world =
      if s.attrs.frame_offset_modified then
        (E.ma_decoder_seek_to_pcm_frame s.world s.attrs.frame_offset).1
      else s.world := by
  unfold service_seek
  split <;> simp [Sys.ext, Sys.set]

/-- World after the direct-playback branch. -/
theorem direct_playback_world {W : Type} (E : Ext W) (s : Sys W)
    (pOutput : List Nat) (frameCount : Nat) :
    (direct_playback E s pOutput frameCount).1.world =
      if (direct_read E s frameCount).res = ma_result.MA_AT_END ∧ s.attrs.loops_at_end = true then
        (E.ma_decoder_seek_to_pcm_frame (direct_read E s frameCount).world 0).1
      else (direct_read E s frameCount).world := by
  simp only [direct_playback]
  by_cases h : (direct_read E s frameCount).res = ma_result.MA_AT_END
  · by_cases hl : s.attrs.loops_at_end = true <;>
      simp [h, hl, handle_end_of_stream, Sys.ext, Sys.set]
  · simp [h, Sys.ext, Sys.set]

/-- Direct path over the stub decoder: if on entry `frame_offset` equals the
decoder cursor (within the file), or a seek to a frame within the file is pending,
then on return `frame_offset` equals the decoder cursor, also after a looping
end-of-stream. -/
theorem direct_path_tracks_cursor (E : Ext StubDecoder) (s : Sys StubDecoder)
    (pOutput : List Nat) (frameCount : Nat)
    (hread : ∀ w d n, E.ma_decoder_read_pcm_frames w d n = w.read n)
    (hseek : ∀ w k, E.ma_decoder_seek_to_pcm_frame w k = w.seek k)
    (hpath : s.attrs.playback_speed = 1 ∨ s.attrs.resampler_initialized = false)
    (hfile : s.world.frames < 2 ^ 64)
    (hsync : s.attrs.frame_offset ≤ s.world.frames ∧
      (s.attrs.frame_offset_modified = false → s.attrs.frame_offset = s.world.cursor)) :
    (audio_stream_callback E s pOutput frameCount).1.attrs.frame_offset =
      (audio_stream_callback E s pOutput frameCount).1.world.cursor := by
  have hpath1 : (service_seek E s).attrs.playback_speed = 1 ∨
      (service_seek E s).attrs.resampler_initialized = false := by
    simpa [service_seek_attrs] using hpath
  obtain ⟨hle, hcur⟩ := hsync
  have hw : (service_seek E s).world.cursor = s.attrs.frame_offset ∧
      (service_seek E s).world.frames = s.world.frames := by
    rw [service_seek_world]
    cases hm : s.attrs.frame_offset_modified
    · simp [hcur hm]
    · simp only [hm, if_true, hseek, StubDecoder.seek, hle]
      exact ⟨trivial, rfl⟩
  have hfo : (service_seek E s).attrs.frame_offset = s.attrs.frame_offset := by
    rw [service_seek_attrs]
  have hlp : (service_seek E s).attrs.loops_at_end = s.attrs.loops_at_end := by
    rw [service_seek_attrs]
  simp only [audio_stream_callback, hpath1, if_true]
  rw [direct_playback_attrs, direct_playback_world]
  simp only [direct_read, hread, hseek, hfo, hlp]
  generalize service_seek E s = s1 at hw
  obtain ⟨hc, hf⟩ := hw
  have hfr : (s1.world.read frameCount).world.frames = s1.world.frames := by
    simp [StubDecoder.read, StubDecoder.frames]
  have hk : (s1.world.read frameCount).num_read_frames =
      min frameCount (s1.world.frames - s1.world.cursor) := by
    simp [StubDecoder.read]
  have hcur2 : (s1.world.read frameCount).world.cursor =
      s1.world.cursor + min frameCount (s1.world.frames - s1.world.cursor) := by
    simp [StubDecoder.read]
  have hadv : u64 (s.attrs.frame_offset + (s1.world.read frameCount).num_read_frames) =
      (s1.world.read frameCount).world.cursor := by
    rw [hk, hcur2, hc]
    apply Nat.mod_eq_of_lt
    have := Nat.min_le_right frameCount (s1.world.frames - s.attrs.frame_offset)
    omega
  by_cases heos : (s1.world.read frameCount).res = ma_result.MA_AT_END
  · by_cases hl : s.attrs.loops_at_end = true
    · simp [heos, hl, StubDecoder.seek]
    · simp only [heos, hl, if_true, if_false, and_false]
      exact hadv
  · simp only [heos, if_false, false_and]
    exact hadv

/-- On the direct path, the read `audio_stream_callback` makes is the decoder's
answer. -/
theorem direct_read_eq {W : Type} (E : Ext W) (s : Sys W) (frameCount : Nat)
    (hdir : s.attrs.playback_speed = 1 ∨ s.attrs.resampler_initialized = false) :
    direct_read E (service_seek E s) frameCount = decoder_answer E s frameCount := by
  simp only [direct_read, decoder_answer, world_at_read, service_seek_world, if_pos hdir]

/-- On the speed-controlled path, the read `audio_stream_callback` makes is the
decoder's answer. -/
theorem scratch_read_eq {W : Type} (E : Ext W) (s : Sys W) (frameCount : Nat)
    (hsp : ¬ (s.attrs.playback_speed = 1 ∨ s.attrs.resampler_initialized = false)) :
    scratch_read E (service_seek E s) frameCount = decoder_answer E s frameCount := by
  simp only [scratch_read, decoder_answer, scratch_answer, world_at_read, service_seek_world,
    service_seek_attrs, if_neg hsp]
  rfl

/-- The path test of line 217 is not affected by the seek-servicing block. -/
theorem service_seek_path {W : Type} (E : Ext W) (s : Sys W) :
    ((service_seek E s).attrs.playback_speed = 1 ∨
      (service_seek E s).attrs.resampler_initialized = false) ↔
    (s.attrs.playback_speed = 1 ∨ s.attrs.resampler_initialized = false) := by
  simp [service_seek_attrs]

/-- C2: with `loops_at_end = false`, a callback never issues a device stop and
makes exactly one decoder read, the one whose log entry carries the decoder's
answer (on the direct path a read of `frameCount` frames into the output buffer,
on the speed-controlled path the read into the scratch buffer).  If the decoder
answers that read with end-of-stream, the callback ends with `audio_stream_active
= false`, `audio_stream_ended_naturally = true` and `frame_offset` at its advanced
value; if it does not, both flags keep their values. -/
theorem c2_non_looping_end_of_stream {W : Type} (E : Ext W) (s : Sys W)
    (pOutput : List Nat) (frameCount : Nat)
    (hloop : s.attrs.loops_at_end = false) :
    Call.ma_device_stop ∉ callback_calls E s pOutput frameCount ∧
    (callback_calls E s pOutput frameCount).filter is_read = [read_entry E s frameCount] ∧
    ((decoder_answer E s frameCount).res = ma_result.MA_AT_END →
      (audio_stream_callback E s pOutput frameCount).1.attrs.audio_stream_active = false ∧
      (audio_stream_callback E s pOutput frameCount).1.attrs.audio_stream_ended_naturally = true ∧
      (audio_stream_callback E s pOutput frameCount).1.attrs.frame_offset =
        advanced_offset E s frameCount) ∧
    ((decoder_answer E s frameCount).res ≠ ma_result.MA_AT_END →
      (audio_stream_callback E s pOutput frameCount).1.attrs.audio_stream_active =
        s.attrs.audio_stream_active ∧
      (audio_stream_callback E s pOutput frameCount).1.attrs.audio_stream_ended_naturally =
        s.attrs.audio_stream_ended_naturally) := by
  by_cases hdir : s.attrs.playback_speed = 1 ∨ s.attrs.resampler_initialized = false
  · have hpath := (service_seek_path E s).mpr hdir
    simp only [callback_calls, new_calls, audio_stream_callback, if_pos hpath, read_entry,
      advanced_offset, if_pos hdir, ← direct_read_eq E s frameCount hdir]
    simp only [direct_playback_calls, direct_playback_attrs, service_seek_calls, service_seek_attrs,
      List.append_assoc, drop_length_append, hloop]
    by_cases h : (direct_read E (service_seek E s) frameCount).res = ma_result.MA_AT_END <;>
      cases hm : s.attrs.frame_offset_modified <;>
      simp [is_read, h]
  · have hpath := fun h => hdir ((service_seek_path E s).mp h)
    simp only [callback_calls, new_calls, audio_stream_callback, if_neg hpath, read_entry,
      advanced_offset, if_neg hdir, ← scratch_read_eq E s frameCount hdir]
    simp only [handle_speed_controlled_playback_calls, handle_speed_controlled_playback_attrs,
      service_seek_calls, service_seek_attrs,
      List.append_assoc, drop_length_append, hloop]
    by_cases h : (scratch_read E (service_seek E s) frameCount).res = ma_result.MA_AT_END <;>
      cases hm : s.attrs.frame_offset_modified <;>
      by_cases hn : (scratch_read E (service_seek E s) frameCount).num_read_frames > 0 <;>
      simp [is_read, h, hn, speed_path_offset, service_seek_attrs, u64, resample_out,
        resampler_answer, frames_to_read, bytes_per_frame]


/-- Witness for C2, on both paths.  Direct path: the third callback of the ten-frame
scenario (two frames left, four requested) ends the stream with `frame_offset =
10`.  Speed-controlled path: at double speed on a five-frame decoder the scratch
read of nine frames returns five with end-of-stream, the resampler consumes four,
and the callback ends the stream with `frame_offset = 4`. -/
theorem c2_non_looping_end_of_stream_witness :
    (ten_frames_at_8.attrs.loops_at_end = false ∧
      read_entry stubExt ten_frames_at_8 4 =
        Call.ma_decoder_read_pcm_frames Dst.pOutput 4 ma_result.MA_AT_END 2 ∧
      (audio_stream_callback stubExt ten_frames_at_8 stale4 4).1.attrs.audio_stream_active
        = false ∧
      (audio_stream_callback stubExt ten_frames_at_8 stale4 4).1.attrs.audio_stream_ended_naturally
        = true ∧
      (audio_stream_callback stubExt ten_frames_at_8 stale4 4).1.attrs.frame_offset =
        advanced_offset stubExt ten_frames_at_8 4 ∧
      advanced_offset stubExt ten_frames_at_8 4 = 10) ∧
    (double_speed_5.attrs.loops_at_end = false ∧
      read_entry pairingExt double_speed_5 4 =
        Call.ma_decoder_read_pcm_frames Dst.temp_buffer 9 ma_result.MA_AT_END 5 ∧
      (audio_stream_callback pairingExt double_speed_5 stale4 4).1.attrs.audio_stream_active
        = false ∧
      (audio_stream_callback pairingExt double_speed_5 stale4 4).1.attrs.audio_stream_ended_naturally
        = true ∧
      (audio_stream_callback pairingExt double_speed_5 stale4 4).1.attrs.frame_offset =
        advanced_offset pairingExt double_speed_5 4 ∧
      advanced_offset pairingExt double_speed_5 4 = 4) :=
  ⟨⟨by decide, by decide,
      ((c2_non_looping_end_of_stream stubExt ten_frames_at_8 stale4 4 (by decide)).2.2.1
        (by decide)).1,
      ((c2_non_looping_end_of_stream stubExt ten_frames_at_8 stale4 4 (by decide)).2.2.1
        (by decide)).2.1,
      ((c2_non_looping_end_of_stream stubExt ten_frames_at_8 stale4 4 (by decide)).2.2.1
        (by decide)).2.2,
      by decide⟩,
    ⟨by decide!, by decide!,
      ((c2_non_looping_end_of_stream pairingExt double_speed_5 stale4 4 (by decide!)).2.2.1
        (by decide!)).1,
      ((c2_non_looping_end_of_stream pairingExt double_speed_5 stale4 4 (by decide!)).2.2.1
        (by decide!)).2.1,
      ((c2_non_looping_end_of_stream pairingExt double_speed_5 stale4 4 (by decide!)).2.2.1
        (by decide!)).2.2,
      by decide!⟩⟩

/-- C3: with `loops_at_end = true`, a callback whose decoder read is answered with
end-of-stream (on the direct path the read of `frameCount` frames into the output
buffer, on the speed-controlled path the read into the scratch buffer) leaves
`audio_stream_ended_naturally` and `audio_stream_active` as they were, issues a
decoder seek to frame 0 as its last call, after that read, and ends with
`frame_offset = 0`. -/
theorem c3_looping_end_of_stream {W : Type} (E : Ext W) (s : Sys W)
    (pOutput : List Nat) (frameCount : Nat) (hloop : s.attrs.loops_at_end = true)
    (heos : (decoder_answer E s frameCount).res = ma_result.MA_AT_END) :
    (audio_stream_callback E s pOutput frameCount).1.attrs.audio_stream_ended_naturally =
      s.attrs.audio_stream_ended_naturally ∧
    (audio_stream_callback E s pOutput frameCount).1.attrs.audio_stream_active =
      s.attrs.audio_stream_active ∧
    (∃ pre, callback_calls E s pOutput frameCount = pre ++ [Call.ma_decoder_seek_to_pcm_frame 0] ∧
      read_entry E s frameCount ∈ pre) ∧
    (audio_stream_callback E s pOutput frameCount).1.attrs.frame_offset = 0 := by
  by_cases hdir : s.attrs.playback_speed = 1 ∨ s.attrs.resampler_initialized = false
  · have hpath := (service_seek_path E s).mpr hdir
    rw [← direct_read_eq E s frameCount hdir] at heos
    simp only [callback_calls, new_calls, audio_stream_callback, if_pos hpath, read_entry,
      if_pos hdir, ← direct_read_eq E s frameCount hdir]
    simp only [direct_playback_calls, direct_playback_attrs, service_seek_calls, service_seek_attrs,
      List.append_assoc, drop_length_append, hloop, heos]
    cases hm : s.attrs.frame_offset_modified
    · simp only [if_true, and_self, true_and, and_true]
      exact ⟨[_], rfl, by simp⟩
    · simp only [if_true, and_self, true_and, and_true]
      exact ⟨[_, _], rfl, by simp⟩
  · have hpath := fun h => hdir ((service_seek_path E s).mp h)
    rw [← scratch_read_eq E s frameCount hdir] at heos
    simp only [callback_calls, new_calls, audio_stream_callback, if_neg hpath, read_entry,
      if_neg hdir, ← scratch_read_eq E s frameCount hdir]
    simp only [handle_speed_controlled_playback_calls, handle_speed_controlled_playback_attrs,
      service_seek_calls, service_seek_attrs,
      List.append_assoc, drop_length_append, hloop, heos]
    cases hm : s.attrs.frame_offset_modified <;>
      by_cases hn : (scratch_read E (service_seek E s) frameCount).num_read_frames > 0 <;>
      simp only [if_true, and_self, true_and, and_true, hn, if_false]
    · exact ⟨[_, _], rfl, by simp [frames_to_read, bytes_per_frame]⟩
    · exact ⟨[_], rfl, by simp [frames_to_read, bytes_per_frame]⟩
    · exact ⟨[_, _, _], rfl, by simp [frames_to_read, bytes_per_frame]⟩
    · exact ⟨[_, _], rfl, by simp [frames_to_read, bytes_per_frame]⟩

/-- Witness for C3, on both paths.  Direct path: the ten-frame scenario at frame 8
with looping on.  Speed-controlled path: the five-frame decoder at double speed
with looping on.  In both the read is answered with end-of-stream, the flag
`audio_stream_ended_naturally` stays clear and `frame_offset` ends at 0. -/
theorem c3_looping_end_of_stream_witness :
    (looping_at_8.attrs.loops_at_end = true ∧
      (decoder_answer stubExt looping_at_8 4).res = ma_result.MA_AT_END ∧
      (audio_stream_callback stubExt looping_at_8 stale4 4).1.attrs.audio_stream_ended_naturally
        = false ∧
      (audio_stream_callback stubExt looping_at_8 stale4 4).1.attrs.frame_offset = 0) ∧
    (double_speed_5_looping.attrs.loops_at_end = true ∧
      (decoder_answer pairingExt double_speed_5_looping 4).res = ma_result.MA_AT_END ∧
      (audio_stream_callback pairingExt double_speed_5_looping stale4 4).1.attrs.audio_stream_ended_naturally
        = false ∧
      (audio_stream_callback pairingExt double_speed_5_looping stale4 4).1.attrs.frame_offset
        = 0) :=
  ⟨⟨by decide, by decide,
      (c3_looping_end_of_stream stubExt looping_at_8 stale4 4 (by decide) (by decide)).1,
      (c3_looping_end_of_stream stubExt looping_at_8 stale4 4 (by decide) (by decide)).2.2.2⟩,
    ⟨by decide!, by decide!,
      (c3_looping_end_of_stream pairingExt double_speed_5_looping stale4 4
        (by decide!) (by decide!)).1,
      (c3_looping_end_of_stream pairingExt double_speed_5_looping stale4 4
        (by decide!) (by decide!)).2.2.2⟩⟩

/-- Clearing bytes inside a run of zeros that follows a head leaves the buffer as
it is. -/
theorem memset_zeros (hd : List Nat) (total len : Nat) (h : len ≤ total) :
    memset (hd ++ List.replicate total 0) hd.length len = hd ++ List.replicate total 0 := by
  simp only [memset, List.take_left', List.append_assoc, List.append_cancel_left_eq]
  rw [List.drop_append, List.drop_replicate]
  simp only [List.drop_eq_nil_of_le (Nat.le_add_right hd.length len), List.nil_append,
    Nat.add_sub_cancel_left, ← List.replicate_add]
  congr 1
  omega

/-- The frame size the code computes in `ma_uint32` is the frame size, if that
fits `ma_uint32`. -/
theorem bytes_per_frame_eq {W : Type} (E : Ext W) (a : Attrs) (hfit : frame_size E a < 2 ^ 32) :
    bytes_per_frame E a = frame_size E a :=
  Nat.mod_eq_of_lt hfit

/-- Speed-controlled path, frames read, silenced output buffer: the output buffer
is the `m` frames the resampler wrote followed by `frameCount - m` zero frames,
for every `frameCount`. -/
theorem resample_or_silence_silent {W : Type} (E : Ext W) (s : Sys W) (rd : ReadOut W)
    (frameCount : Nat)
    (hrd : rd.num_read_frames > 0)
    (hfc : frameCount < 2 ^ 32)
    (hdata : (E.ma_resampler_process_pcm_frames s.world rd.data rd.num_read_frames frameCount).data.length
      = (E.ma_resampler_process_pcm_frames s.world rd.data rd.num_read_frames frameCount).frames_out
        * bytes_per_frame E s.attrs) :
    (resample_or_silence E s rd (List.replicate (frameCount * bytes_per_frame E s.attrs) 0)
        frameCount).2 =
      (E.ma_resampler_process_pcm_frames s.world rd.data rd.num_read_frames frameCount).data ++
      List.replicate ((frameCount -
        (E.ma_resampler_process_pcm_frames s.world rd.data rd.num_read_frames frameCount).frames_out)
          * bytes_per_frame E s.attrs) 0 := by
  generalize hpr : E.ma_resampler_process_pcm_frames s.world rd.data rd.num_read_frames frameCount
    = pr at hdata ⊢
  generalize hb : bytes_per_frame E s.attrs = b at hdata ⊢
  have hb32 : b < 2 ^ 32 := by
    rw [← hb]; exact Nat.mod_lt _ (by norm_num)
  have hstore : store (List.replicate (frameCount * b) 0) pr.data =
      pr.data ++ List.replicate ((frameCount - pr.frames_out) * b) 0 := by
    rw [store, List.drop_replicate, hdata, Nat.sub_mul]
  simp only [resample_or_silence, hrd, if_true, hpr, hb, hstore]
  by_cases hlt : pr.frames_out < frameCount
  · simp only [hlt, if_true, Sys.ext, Sys.set]
    have h1 : u32 pr.frames_out = pr.frames_out := Nat.mod_eq_of_lt (by omega)
    have h2 : u32 (frameCount + 2 ^ 32 - pr.frames_out) = frameCount - pr.frames_out := by
      unfold u32; omega
    have h4 : u64 (pr.frames_out * b) = pr.frames_out * b := by
      apply Nat.mod_eq_of_lt
      calc pr.frames_out * b < 2 ^ 32 * 2 ^ 32 :=
            Nat.mul_lt_mul_of_lt_of_lt (by omega) hb32
        _ = 2 ^ 64 := by norm_num
    rw [h1, h2, h4, ← hdata]
    exact memset_zeros _ _ _ (Nat.mod_le _ _)
  · simp only [hlt, if_false, Sys.ext, Sys.set]

/-- Output of the speed-controlled path when the decoder read returned frames: the
frames the resampler wrote followed by zero frames, and the resampler call is
logged; for the silenced buffer of the device, and for any buffer whose byte count
is below `2^32`. -/
theorem speed_path_fill_frames {W : Type} (E : Ext W) (s : Sys W)
    (pOutput : List Nat) (frameCount : Nat)
    (hfc : frameCount < 2 ^ 32)
    (hfit : frame_size E s.attrs < 2 ^ 32)
    (hbuf : pOutput.length = frameCount * frame_size E s.attrs)
    (hdev : frameCount * frame_size E s.attrs < 2 ^ 32 ∨
      pOutput = silent_buffer E s.attrs frameCount)
    (hm : (resampler_answer E (scratch_answer E s.attrs s.world frameCount) frameCount).frames_out
      ≤ frameCount)
    (hdata :
      (resampler_answer E (scratch_answer E s.attrs s.world frameCount) frameCount).data.length =
      (resampler_answer E (scratch_answer E s.attrs s.world frameCount) frameCount).frames_out *
        frame_size E s.attrs)
    (hpos : 0 < (scratch_answer E s.attrs s.world frameCount).num_read_frames) :
    (handle_speed_controlled_playback E s pOutput frameCount).2 =
      (resampler_answer E (scratch_answer E s.attrs s.world frameCount) frameCount).data ++
      List.replicate ((frameCount -
        (resampler_answer E (scratch_answer E s.attrs s.world frameCount) frameCount).frames_out)
          * frame_size E s.attrs) 0 ∧
    Call.ma_resampler_process_pcm_frames
        (scratch_answer E s.attrs s.world frameCount).num_read_frames frameCount
        (resampler_answer E (scratch_answer E s.attrs s.world frameCount) frameCount).frames_in
        (resampler_answer E (scratch_answer E s.attrs s.world frameCount) frameCount).frames_out
      ∈ new_calls s (handle_speed_controlled_playback E s pOutput frameCount).1 := by
  have hb : bytes_per_frame E s.attrs = frame_size E s.attrs := bytes_per_frame_eq E s.attrs hfit
  have hrd : scratch_read E s frameCount = scratch_answer E s.attrs s.world frameCount := rfl
  have hro : resample_out E s frameCount =
      resampler_answer E (scratch_answer E s.attrs s.world frameCount) frameCount := rfl
  rw [← hb] at hbuf hdata hdev ⊢
  rw [← hro] at hm hdata ⊢
  rw [← hrd] at hpos ⊢
  constructor
  · rw [handle_speed_controlled_playback_out]
    rcases hdev with hov | hsil
    · exact resample_or_silence_fill E _ _ pOutput frameCount hpos hfc hbuf hm hdata
        (lt_of_le_of_lt (Nat.mul_le_mul_right _ (Nat.sub_le _ _)) hov)
    · rw [hsil, silent_buffer, ← hb]
      exact resample_or_silence_silent E _ _ frameCount hpos hfc hdata
  · simp only [new_calls, handle_speed_controlled_playback_calls, drop_length_append, hpos,
      if_true]
    simp

/-- Output of the speed-controlled path when the decoder read returned no frame:
all zero frames, and no resampler call; for the silenced buffer of the device, and
for any buffer whose byte count is below `2^32`. -/
theorem speed_path_fill_none {W : Type} (E : Ext W) (s : Sys W)
    (pOutput : List Nat) (frameCount : Nat)
    (hfit : frame_size E s.attrs < 2 ^ 32)
    (hbuf : pOutput.length = frameCount * frame_size E s.attrs)
    (hdev : frameCount * frame_size E s.attrs < 2 ^ 32 ∨
      pOutput = silent_buffer E s.attrs frameCount)
    (hzero : (scratch_answer E s.attrs s.world frameCount).num_read_frames = 0) :
    (handle_speed_controlled_playback E s pOutput frameCount).2 =
      List.replicate (frameCount * frame_size E s.attrs) 0 ∧
    ∀ a b c d, Call.ma_resampler_process_pcm_frames a b c d ∉
      new_calls s (handle_speed_controlled_playback E s pOutput frameCount).1 := by
  have hb : bytes_per_frame E s.attrs = frame_size E s.attrs := bytes_per_frame_eq E s.attrs hfit
  have hrd : scratch_read E s frameCount = scratch_answer E s.attrs s.world frameCount := rfl
  rw [← hb] at hbuf hdev ⊢
  rw [← hrd] at hzero
  constructor
  · rw [speed_path_no_frames E s pOutput frameCount hzero]
    rcases hdev with hov | hsil
    · rw [show u32 (frameCount * bytes_per_frame E s.attrs) =
        frameCount * bytes_per_frame E s.attrs from Nat.mod_eq_of_lt hov]
      exact memset_all _ _ hbuf
    · rw [hsil, silent_buffer, ← hb]
      exact memset_zeros [] _ _ (Nat.mod_le _ _)
  · intro a b c d
    simp only [new_calls, handle_speed_controlled_playback_calls, drop_length_append, hzero,
      gt_iff_lt, lt_self_iff_false, if_false]
    split_ifs <;> simp

/-- C5: on the speed-controlled path the output buffer is the `m` frames the
resampler wrote followed by `frameCount - m` all-zero frames, and if the decoder
read returned 0 frames the resampler is not called and all `frameCount` frames are
zero.  This holds for every `frameCount` when the buffer is the one the device
passes (silenced), and for every content of the buffer when its byte count
`frameCount * frame_size` is below `2^32`.  The hypotheses on the resampler are its
contract: it reports `m <= frameCount` frames and stores `m` frames. -/
theorem c5_speed_path_silence_fill {W : Type} (E : Ext W) (s : Sys W)
    (pOutput : List Nat) (frameCount : Nat)
    (hfc : frameCount < 2 ^ 32)
    (hfit : frame_size E s.attrs < 2 ^ 32)
    (hbuf : pOutput.length = frameCount * frame_size E s.attrs)
    (hdev : frameCount * frame_size E s.attrs < 2 ^ 32 ∨
      pOutput = silent_buffer E s.attrs frameCount)
    (hm : (resampler_answer E (scratch_answer E s.attrs s.world frameCount) frameCount).frames_out
      ≤ frameCount)
    (hdata :
      (resampler_answer E (scratch_answer E s.attrs s.world frameCount) frameCount).data.length =
      (resampler_answer E (scratch_answer E s.attrs s.world frameCount) frameCount).frames_out *
        frame_size E s.attrs) :
    (0 < (scratch_answer E s.attrs s.world frameCount).num_read_frames →
      (handle_speed_controlled_playback E s pOutput frameCount).2 =
        (resampler_answer E (scratch_answer E s.attrs s.world frameCount) frameCount).data ++
        List.replicate ((frameCount -
          (resampler_answer E (scratch_answer E s.attrs s.world frameCount) frameCount).frames_out)
            * frame_size E s.attrs) 0 ∧
      Call.ma_resampler_process_pcm_frames
          (scratch_answer E s.attrs s.world frameCount).num_read_frames frameCount
          (resampler_answer E (scratch_answer E s.attrs s.world frameCount) frameCount).frames_in
          (resampler_answer E (scratch_answer E s.attrs s.world frameCount) frameCount).frames_out
        ∈ new_calls s (handle_speed_controlled_playback E s pOutput frameCount).1) ∧
    ((scratch_answer E s.attrs s.world frameCount).num_read_frames = 0 →
      (handle_speed_controlled_playback E s pOutput frameCount).2 =
        List.replicate (frameCount * frame_size E s.attrs) 0 ∧
      ∀ a b c d, Call.ma_resampler_process_pcm_frames a b c d ∉
        new_calls s (handle_speed_controlled_playback E s pOutput frameCount).1) :=
  ⟨speed_path_fill_frames E s pOutput frameCount hfc hfit hbuf hdev hm hdata,
    speed_path_fill_none E s pOutput frameCount hfit hbuf hdev⟩

/-- Witness for C5 on the five-frame decoder at double speed, with a buffer of four
stale one-byte frames.  First callback: the scratch read returns five frames, the
resampler writes two, and the buffer ends as two audio frames and two zero frames.
Once the decoder is exhausted the read returns no frame and the whole buffer is
zero. -/
theorem c5_speed_path_silence_fill_witness :
    (0 < (scratch_answer pairingExt double_speed_5.attrs double_speed_5.world 4).num_read_frames ∧
      (resampler_answer pairingExt
        (scratch_answer pairingExt double_speed_5.attrs double_speed_5.world 4) 4).frames_out = 2 ∧
      (handle_speed_controlled_playback pairingExt double_speed_5 stale4 4).2 =
        [101, 103, 0, 0]) ∧
    ((scratch_answer pairingExt double_speed_5_done.attrs double_speed_5_done.world 4).num_read_frames
        = 0 ∧
      (handle_speed_controlled_playback pairingExt double_speed_5_done stale4 4).2 =
        [0, 0, 0, 0]) :=
  ⟨⟨by decide!, by decide!,
      (((c5_speed_path_silence_fill pairingExt double_speed_5 stale4 4 (by norm_num)
        (by decide!) (by decide!) (Or.inl (by decide!)) (by decide!) (by decide!)).1
        (by decide!)).1).trans (by decide!)⟩,
    ⟨by decide!,
      (((c5_speed_path_silence_fill pairingExt double_speed_5_done stale4 4 (by norm_num)
        (by decide!) (by decide!) (Or.inl (by decide!)) (by decide!) (by decide!)).2
        (by decide!)).1).trans (by decide!)⟩⟩

/-- Values of the float product: `10 * 0.7f` is `7.0` and `480 * 0.7f` is `336.0`
(the exact products are just below), `48000 * 0.7f` is `33600.0`, and `2^25 - 1`
is first rounded to `2^25`. -/
theorem f32_mul_values :
    f32_0_7 = f32_round (7 / 10) ∧
    f32_mul 10 f32_0_7 = 7 ∧ (10 : ℚ) * f32_0_7 < 7 ∧
    f32_mul 480 f32_0_7 = 336 ∧ (480 : ℚ) * f32_0_7 < 336 ∧
    f32_mul 48000 f32_0_7 = 33600 ∧
    f32_mul 33554431 (1 / 16384) = 2048 ∧
    f32_mul 3 (3 / 2) = 9 / 2 := by
  decide!

/-- C19 (counterexample): a file load while the resampler is running leaves the
scratch buffer of the previous file.  After loading a four-channel file,
initializing, setting double speed and loading a one-channel file, the resampler
flag is set and `temp_buffer_size` is 16384, whereas `4096 * channels *
bytes_per_sample` is 4096; a render cycle of 4096 frames then asks the decoder for
8193 frames, more than 4096. -/
theorem c19_reload_keeps_stale_scratch :
    reloaded.attrs.resampler_initialized = true ∧
    reloaded.attrs.temp_buffer_size = 16384 ∧
    4096 * reloaded.attrs.decoder_outputChannels *
      stubExt.ma_get_bytes_per_sample reloaded.attrs.decoder_outputFormat = 4096 ∧
    0 < reloaded.attrs.decoder_outputChannels *
      stubExt.ma_get_bytes_per_sample reloaded.attrs.decoder_outputFormat ∧
    (new_calls reloaded (device_render stubExt reloaded 4096).1).head? =
      some (Call.ma_decoder_read_pcm_frames Dst.temp_buffer 8193 ma_result.MA_AT_END 10) := by
  decide!

/-- The frames requested for the scratch buffer fit `temp_buffer_size` bytes. -/
theorem frames_to_read_bytes {W : Type} (E : Ext W) (a : Attrs) (frameCount : Nat) :
    frames_to_read E a frameCount * bytes_per_frame E a ≤ a.temp_buffer_size := by
  have hmax : frames_to_read E a frameCount ≤ a.temp_buffer_size / bytes_per_frame E a := by
    simp only [frames_to_read]
    have hle : u32 (a.temp_buffer_size / bytes_per_frame E a) ≤
        a.temp_buffer_size / bytes_per_frame E a := Nat.mod_le _ _
    split_ifs with hgt
    · exact hle
    · exact le_trans (not_lt.mp hgt) hle
  exact le_trans (Nat.mul_le_mul_right _ hmax) (Nat.div_mul_le_self _ _)

/-- The only decoder read of `handle_speed_controlled_playback` is the read of
`frames_to_read` frames into the scratch buffer. -/
theorem speed_path_reads {W : Type} (E : Ext W) (s : Sys W) (pOutput : List Nat)
    (frameCount : Nat) :
    (new_calls s (handle_speed_controlled_playback E s pOutput frameCount).1).filter is_read =
      [Call.ma_decoder_read_pcm_frames Dst.temp_buffer (frames_to_read E s.attrs frameCount)
        (scratch_answer E s.attrs s.world frameCount).res
        (scratch_answer E s.attrs s.world frameCount).num_read_frames] := by
  have hrd : scratch_read E s frameCount = scratch_answer E s.attrs s.world frameCount := rfl
  rw [new_calls, handle_speed_controlled_playback_calls, drop_length_append, hrd]
  split_ifs <;> simp [is_read]

/-- C19 (amended): in every state reached from `init_attrs` by a sequence of the
control operations (file loads included) and render callbacks, whatever the
external calls return, `resampler_initialized = true` implies `temp_buffer !=
NULL`, and when `handle_speed_controlled_playback` runs in such a state with a
non-zero frame size it makes exactly one decoder read, into `temp_buffer`, whose
frames fit `temp_buffer_size` bytes, for every `frameCount` and `playback_speed`.
If moreover every file load of the sequence is applied with the resampler flag
clear, then `temp_buffer_size = 4096 * channels * bytes_per_sample` (the product
of line 135, computed in `ma_uint32`; the exact product whenever that fits
`ma_uint32`) and the read asks for at most 4096 frames. -/
theorem c19_scratch_buffer_valid {W : Type} (E : Ext W) (a : Attrs) (w : W) (ops : List Op)
    (hri : (run E (initial E a w) ops).attrs.resampler_initialized = true) :
    (run E (initial E a w) ops).attrs.temp_buffer ≠ none ∧
    (0 < bytes_per_frame E (run E (initial E a w) ops).attrs →
      ∀ (pOutput : List Nat) (frameCount : Nat),
        ∃ cnt res k,
          (new_calls (run E (initial E a w) ops)
            (handle_speed_controlled_playback E (run E (initial E a w) ops)
              pOutput frameCount).1).filter is_read =
            [Call.ma_decoder_read_pcm_frames Dst.temp_buffer cnt res k] ∧
          cnt * bytes_per_frame E (run E (initial E a w) ops).attrs ≤
            (run E (initial E a w) ops).attrs.temp_buffer_size ∧
          (loads_when_unset E (initial E a w) ops → cnt ≤ 4096)) ∧
    (loads_when_unset E (initial E a w) ops →
      (run E (initial E a w) ops).attrs.temp_buffer_size =
        scratch_size E (run E (initial E a w) ops).attrs ∧
      (4096 * (run E (initial E a w) ops).attrs.decoder_outputChannels *
          E.ma_get_bytes_per_sample (run E (initial E a w) ops).attrs.decoder_outputFormat
            < 2 ^ 32 →
        (run E (initial E a w) ops).attrs.temp_buffer_size =
          4096 * (run E (initial E a w) ops).attrs.decoder_outputChannels *
            E.ma_get_bytes_per_sample (run E (initial E a w) ops).attrs.decoder_outputFormat)) := by
  have htb := ((run_resampler_inv E ops (initial E a w) False (fun h => h.elim)
    (by simp [initial, init_attrs]) (by simp [initial, init_attrs])).2 hri).1
  have hsz : loads_when_unset E (initial E a w) ops →
      (run E (initial E a w) ops).attrs.temp_buffer_size =
        scratch_size E (run E (initial E a w) ops).attrs := fun hg =>
    ((run_resampler_inv E ops (initial E a w) True (fun _ => hg)
      (by simp [initial, init_attrs]) (by simp [initial, init_attrs])).2 hri).2 trivial
  refine ⟨?_, ?_, ?_⟩
  · intro hnone
    rw [hnone] at htb
    cases htb
  · intro _ pOutput frameCount
    exact ⟨_, _, _, speed_path_reads E _ pOutput frameCount, frames_to_read_bytes E _ frameCount,
      fun hg => (frames_to_read_fits E _ frameCount (hsz hg)).1⟩
  · intro hg
    refine ⟨hsz hg, fun hfit => ?_⟩
    rw [hsz hg]
    exact (scratch_size_exact E _ hfit).1

/-- Witness for C19: loading a two-channel file, then `init_audio_stream` and
`set_playback_speed(2.0)` on the stub: every load is applied with the resampler
flag clear, the resampler flag is set afterwards, the scratch pointer is not
`NULL` and the scratch size is `4096 * 2 * 1`. -/
theorem c19_scratch_buffer_valid_witness :
    loads_when_unset stubExt (initial stubExt zero_attrs ten_frames.world) load_then_speed_ops ∧
    (run stubExt (initial stubExt zero_attrs ten_frames.world)
      load_then_speed_ops).attrs.resampler_initialized = true ∧
    (run stubExt (initial stubExt zero_attrs ten_frames.world)
      load_then_speed_ops).attrs.temp_buffer ≠ none ∧
    (run stubExt (initial stubExt zero_attrs ten_frames.world)
      load_then_speed_ops).attrs.temp_buffer_size = 8192 :=
  ⟨⟨fun _ => by decide!, fun h => absurd h (by decide), fun h => absurd h (by decide), trivial⟩,
    by decide!,
    (c19_scratch_buffer_valid stubExt zero_attrs ten_frames.world
      load_then_speed_ops (by decide!)).1,
    (((c19_scratch_buffer_valid stubExt zero_attrs ten_frames.world
      load_then_speed_ops (by decide!)).2.2
        ⟨fun _ => by decide!, fun h => absurd h (by decide), fun h => absurd h (by decide),
          trivial⟩).2 (by decide!)).trans (by decide!)⟩

/-! ### Traces of the scenarios -/

/-- Trace of the direct path at end-of-stream: two frames left, four requested.
The callback makes one read, ends the stream and advances `frame_offset` to 10; it
stores the two frames read and nothing else, so a buffer entered with other
contents (which the device does not pass) keeps them in its last two frames. -/
theorem ten_frames_at_8_trace :
    callback_calls stubExt ten_frames_at_8 stale4 4 =
      [Call.ma_decoder_read_pcm_frames Dst.pOutput 4 ma_result.MA_AT_END 2] ∧
    (audio_stream_callback stubExt ten_frames_at_8 stale4 4).1.attrs.audio_stream_active = false ∧
    (audio_stream_callback stubExt ten_frames_at_8 stale4 4).1.attrs.audio_stream_ended_naturally
      = true ∧
    (audio_stream_callback stubExt ten_frames_at_8 stale4 4).1.attrs.frame_offset = 10 ∧
    (device_render stubExt ten_frames_at_8 4).2 = [109, 110, 0, 0] ∧
    (audio_stream_callback stubExt ten_frames_at_8 stale4 4).2 = [109, 110, 7, 7] := by
  decide

/-- Trace of the direct path at a looping end-of-stream: the read is followed by a
seek to frame 0 and `frame_offset` ends at 0. -/
theorem looping_at_8_trace :
    callback_calls stubExt looping_at_8 stale4 4 =
      [Call.ma_decoder_read_pcm_frames Dst.pOutput 4 ma_result.MA_AT_END 2,
        Call.ma_decoder_seek_to_pcm_frame 0] ∧
    (audio_stream_callback stubExt looping_at_8 stale4 4).1.attrs.audio_stream_ended_naturally
      = false ∧
    (audio_stream_callback stubExt looping_at_8 stale4 4).1.attrs.frame_offset = 0 := by
  decide

/-- Trace of the speed-controlled path at end-of-stream: five frames at double
speed.  Nine frames are requested, five read with end-of-stream, the resampler
consumes four and writes two; the stream ends with `frame_offset = 4`, and the
buffer holds two audio frames and two zero frames whatever it held on entry. -/
theorem double_speed_5_trace :
    callback_calls pairingExt double_speed_5 stale4 4 =
      [Call.ma_decoder_read_pcm_frames Dst.temp_buffer 9 ma_result.MA_AT_END 5,
        Call.ma_resampler_process_pcm_frames 5 4 4 2] ∧
    (audio_stream_callback pairingExt double_speed_5 stale4 4).1.attrs.audio_stream_active
      = false ∧
    (audio_stream_callback pairingExt double_speed_5 stale4 4).1.attrs.audio_stream_ended_naturally
      = true ∧
    (audio_stream_callback pairingExt double_speed_5 stale4 4).1.attrs.frame_offset = 4 ∧
    (device_render pairingExt double_speed_5 4).2 = [101, 103, 0, 0] ∧
    (audio_stream_callback pairingExt double_speed_5 stale4 4).2 = [101, 103, 0, 0] := by
  decide!

/-- Trace of the speed-controlled path at a looping end-of-stream: read, resampler
call, then a seek to frame 0; `frame_offset` ends at 0. -/
theorem double_speed_5_looping_trace :
    callback_calls pairingExt double_speed_5_looping stale4 4 =
      [Call.ma_decoder_read_pcm_frames Dst.temp_buffer 9 ma_result.MA_AT_END 5,
        Call.ma_resampler_process_pcm_frames 5 4 4 2,
        Call.ma_decoder_seek_to_pcm_frame 0] ∧
    (audio_stream_callback pairingExt double_speed_5_looping stale4
      4).1.attrs.audio_stream_ended_naturally = false ∧
    (audio_stream_callback pairingExt double_speed_5_looping stale4 4).1.attrs.frame_offset
      = 0 := by
  decide!

/-- Trace of the speed-controlled path on an exhausted decoder: the read returns no
frame, the resampler is not called and the buffer is zeroed. -/
theorem double_speed_5_done_trace :
    new_calls double_speed_5_done
        (handle_speed_controlled_playback pairingExt double_speed_5_done stale4 4).1 =
      [Call.ma_decoder_read_pcm_frames Dst.temp_buffer 9 ma_result.MA_AT_END 0] ∧
    (handle_speed_controlled_playback pairingExt double_speed_5_done stale4 4).2 =
      [0, 0, 0, 0] := by
  decide!

/-- Trace of the reload scenario: the state before the second load has a scratch
buffer of `4096 * 4` bytes, and the load changes the channel count only. -/
theorem reloaded_trace :
    reloaded.attrs.decoder_outputChannels = 1 ∧
    reloaded.attrs.playback_speed = 2 ∧
    reloaded.attrs.audio_stream_ready = true ∧
    reloaded.attrs.temp_buffer = some 1 ∧
    reloaded.attrs.temp_buffer_size = 4096 * 4 ∧
    frames_to_read stubExt reloaded.attrs 4096 = 8193 := by
  decide!

end JustPlayback
